import Mathlib

/-!
# Verification of `pkg/slackbot/bot.go` (jx-slack)

A shallow embedding of the notification identity engine of the Slack bot:
the two-tier message identity store (annotation on the `PipelineActivity`
plus the in-memory `Timestamps` cache), the posting decision of
`postMessage`, the selection of the oldest and latest activity of a pull
request, the staleness gate of `ReviewRequestMessage`, the label filter of
`isEnabled`, the composition of the two messages with their create-if-missing
policies, and the coordinator `PipelineMessage`.

Modelling conventions.

* Go strings are Lean `String`s; the separators the code looks for
  (`/`, `#`, `-`, digits) are ASCII, so working on characters instead of
  bytes does not change any result on valid UTF-8 text.
* A Go `map[string]V` is an association list read from the front
  (`GoMap`); a `nil` map reads like the empty one.
* A Go `error` is a value of `GoError`; `nil` is `none`.
* The answers of the collaborators (Slack transport, activity store, git
  provider, configuration) are function fields of `SlackBotOptions` and
  `Collaborators`. Every call that acts on the outside (open a conversation,
  send a message, patch an annotation) is appended to a log of `Event`s, so
  that a statement about which calls happen is a statement about that log.
* A method of `*SlackBotOptions` that changes the receiver returns the
  receiver after the call.
-/

namespace SlackBot

/-! ## Go library functions used by the code -/

namespace unicode

/-- The Go function `unicode.ToLower` on the capitals of the ASCII, Latin-1,
Greek and Cyrillic blocks: `A`-`Z`, U+00C0-U+00D6, U+00D8-U+00DE,
U+0391-U+03A1, U+03A3-U+03AB and U+0410-U+042F move up by 32, and
U+0400-U+040F by 80. Capitals of other blocks, which Go lowers too, stay as
written here. No character outside `A`-`Z` is mapped by Go to a letter of
`pr-`, to a sign or to a digit, so the prefix test and the integer parse of
`getPullRequestNumber` see the same characters as in Go; a capital left as
written can only appear in the text that a failed parse carries. -/
def ToLower (r : Char) : Char :=
  let n := r.toNat
  if (65 ≤ n ∧ n ≤ 90) ∨ (0xC0 ≤ n ∧ n ≤ 0xD6) ∨ (0xD8 ≤ n ∧ n ≤ 0xDE) ∨
      (0x391 ≤ n ∧ n ≤ 0x3A1) ∨ (0x3A3 ≤ n ∧ n ≤ 0x3AB) ∨ (0x410 ≤ n ∧ n ≤ 0x42F) then
    Char.ofNat (n + 32)
  else if 0x400 ≤ n ∧ n ≤ 0x40F then Char.ofNat (n + 80)
  else r

end unicode

namespace strings

/-- The Go function `strings.HasPrefix`. -/
def HasPrefix (s pre : String) : Bool :=
  pre.data.isPrefixOf s.data

/-- The Go function `strings.TrimPrefix`: `s` without the leading `pre`,
or `s` itself when it does not start with `pre`. -/
def TrimPrefix (s pre : String) : String :=
  if HasPrefix s pre then ⟨s.data.drop pre.data.length⟩ else s

/-- Cuts a character list at the first occurrence of `sep`. -/
def cut (sep : Char) : List Char → Option (List Char × List Char)
  | [] => none
  | c :: cs =>
    if c = sep then some ([], cs)
    else match cut sep cs with
      | none => none
      | some (a, b) => some (c :: a, b)

/-- Worker of `SplitN` on character lists: at most `n` pieces, the last one
being the unsplit remainder. -/
def splitNChars (sep : Char) : Nat → List Char → List (List Char)
  | 0, _ => []
  | 1, s => [s]
  | n + 2, s =>
    match cut sep s with
    | none => [s]
    | some (a, b) => a :: splitNChars sep (n + 1) b

/-- The Go function `strings.SplitN(s, sep, n)` for a one-character separator
and `n ≥ 0`. -/
def SplitN (s : String) (sep : Char) (n : Nat) : List String :=
  (splitNChars sep n s.data).map String.mk

/-- The Go function `strings.Split(s, sep)` for a one-character separator:
a string of length `k` has at most `k + 1` pieces. -/
def Split (s : String) (sep : Char) : List String :=
  SplitN s sep (s.data.length + 1)

/-- The Go function `strings.ToLower`: every character is mapped by
`unicode.ToLower`. -/
def ToLower (s : String) : String :=
  ⟨s.data.map unicode.ToLower⟩

end strings

/-- A Go `error` value. `WithStack` only attaches a stack trace and is the
identity here. -/
inductive GoError where
  /-- An error made by `fmt.Errorf` or reported by a collaborator. -/
  | msg (text : String)
  /-- An error made by `errors.Wrap(cause, context)`. -/
  | wrap (context : String) (cause : GoError)
  /-- The `strconv.ErrSyntax` failure of `strconv.Atoi` on `input`. -/
  | atoiSyntax (input : String)
  /-- The `strconv.ErrRange` failure of `strconv.Atoi` on `input`. -/
  | atoiRange (input : String)
  deriving DecidableEq, Repr

namespace strconv

/-- Value of a non-empty string of decimal digits, most significant first. -/
def digitsValue : List Char → Nat → Option Nat
  | [], acc => some acc
  | c :: cs, acc =>
    if c.isDigit then digitsValue cs (acc * 10 + (c.toNat - 48)) else none

/-- The Go function `strconv.Atoi` on a 64-bit platform: an optional sign
followed by at least one decimal digit, the value within the range of
`int`. On a syntax error Go returns 0, on a range error the nearest bound. -/
def Atoi (s : String) : Int × Option GoError :=
  let body : List Char :=
    match s.data with
    | c :: cs => if c = '-' ∨ c = '+' then cs else c :: cs
    | [] => []
  let neg : Bool :=
    match s.data with
    | c :: _ => decide (c = '-')
    | [] => false
  match body with
  | [] => (0, some (GoError.atoiSyntax s))
  | d :: ds =>
    match digitsValue (d :: ds) 0 with
    | none => (0, some (GoError.atoiSyntax s))
    | some n =>
      if neg then
        (if n ≤ 2 ^ 63 then (-(n : Int), none)
         else (-(2 ^ 63 : Int), some (GoError.atoiRange s)))
      else
        (if n < 2 ^ 63 then ((n : Int), none)
         else ((2 ^ 63 - 1 : Int), some (GoError.atoiRange s)))

/-- The Go function `strconv.FormatInt(n, 10)`. -/
def FormatInt (n : Int) : String :=
  if n < 0 then "-" ++ Nat.repr n.natAbs else Nat.repr n.toNat

end strconv

namespace strings

/-- The Go function `strings.HasSuffix`. -/
def HasSuffix (s suffix : String) : Bool :=
  suffix.data.reverse.isPrefixOf s.data.reverse

/-- The Go function `strings.TrimSuffix`: `s` without the trailing `suffix`,
or `s` itself when it does not end with `suffix`. -/
def TrimSuffix (s suffix : String) : String :=
  if HasSuffix s suffix then ⟨s.data.take (s.data.length - suffix.data.length)⟩ else s

/-- Worker of `LastIndex`: `i` is the index of the head of the list and `found`
the last index seen so far. -/
def lastIndexFrom (sep : Char) : Nat → List Char → Int → Int
  | _, [], found => found
  | i, c :: cs, found => lastIndexFrom sep (i + 1) cs (if c = sep then (i : Int) else found)

/-- The Go function `strings.LastIndex(s, sep)` for a one-character separator:
the index of its last occurrence, or -1. -/
def LastIndex (s : String) (sep : Char) : Int :=
  lastIndexFrom sep 0 s.data (-1)

/-- The Go function `strings.Join`. -/
def Join : List String → String → String
  | [], _ => ""
  | [a], _ => a
  | a :: b :: rest, sep => a ++ sep ++ Join (b :: rest) sep

/-- Worker of `Replace`: `skip` counts the characters of a match still to be
dropped. -/
def replaceChars (old new : List Char) : Nat → List Char → List Char
  | _, [] => []
  | skip + 1, _ :: cs => replaceChars old new skip cs
  | 0, c :: cs =>
    if old.isPrefixOf (c :: cs) then new ++ replaceChars old new (old.length - 1) cs
    else c :: replaceChars old new 0 cs

/-- The Go function `strings.Replace(s, old, new, -1)` for a non-empty `old`:
every non-overlapping occurrence, from the left. -/
def Replace (s old new : String) : String :=
  ⟨replaceChars old.data new.data 0 s.data⟩

end strings

/-! ## Go maps -/

/-- A Go map with string keys, read from the front. -/
abbrev GoMap (V : Type) := List (String × V)

namespace GoMap

/-- The two-result read `v, ok := m[k]`. -/
def find {V : Type} : GoMap V → String → Option V
  | [], _ => none
  | (k0, v) :: rest, k => if k0 = k then some v else find rest k

/-- The assignment `m[k] = v`. -/
def insert {V : Type} (m : GoMap V) (k : String) (v : V) : GoMap V :=
  (k, v) :: m

/-- The read `m[k]` of a string-valued map: the zero value `""` when the key
is absent. -/
def index (m : GoMap String) (k : String) : String :=
  match find m k with
  | some v => v
  | none => ""

end GoMap

/-! ## Data model -/

/-- The struct `MessageReference`. -/
structure MessageReference where
  ChannelID : String
  Timestamp : String
  deriving DecidableEq, Repr

/-- What `pipelineStatus` reads of a `jenkinsv1.PipelineActivityStep`: the
status of its stage and of its promotion, `none` for a `nil` pointer. -/
structure PipelineActivityStep where
  Stage : Option String := none
  Promote : Option String := none
  deriving DecidableEq, Repr

/-- The fields of `jenkinsv1.PipelineActivitySpec` that the code reads.
Timestamps are Unix seconds. -/
structure PipelineActivitySpec where
  Pipeline : String := ""
  Build : String := ""
  GitOwner : String := ""
  GitRepository : String := ""
  GitURL : String := ""
  Context : String := ""
  Status : String := ""
  StartedTimestamp : Option Int := none
  CompletedTimestamp : Option Int := none
  Version : String := ""
  BuildURL : String := ""
  BuildLogsURL : String := ""
  ReleaseNotesURL : String := ""
  Steps : List PipelineActivityStep := []
  deriving DecidableEq, Repr

/-- The fields of `jenkinsv1.PipelineActivity` that the code reads. A `nil`
annotation map is `none`. -/
structure PipelineActivity where
  Name : String := ""
  Annotations : Option (GoMap String) := none
  Spec : PipelineActivitySpec := {}
  deriving DecidableEq, Repr

/-- The read `activity.Annotations[key]`, which is `""` on a `nil` map. -/
def PipelineActivity.annotationAt (a : PipelineActivity) (key : String) : String :=
  match a.Annotations with
  | none => ""
  | some m => GoMap.index m key

/-- The constant `SlackAnnotationPrefix`. -/
def SlackAnnotationPrefix : String := "bot.slack.apps.jenkins-x.io"

/-- The constant `pullRequestReviewMessageType`. -/
def pullRequestReviewMessageType : String := "pr"

/-- The constant `pipelineMessageType`. -/
def pipelineMessageType : String := "pipeline"

/-- The function `annotationKey`: `Sprintf("%s-%s/%s", prefix, messageType,
TrimPrefix(channel, "#"))`. -/
def annotationKey (channel messageType : String) : String :=
  SlackAnnotationPrefix ++ "-" ++ messageType ++ "/" ++ strings.TrimPrefix channel "#"

/-- The function `annotationValue`: `Sprintf("%s/%s", channelId, timestamp)`. -/
def annotationValue (channelId timestamp : String) : String :=
  channelId ++ "/" ++ timestamp

/-- The method `findMessageRefViaAnnotations`. -/
def findMessageRefViaAnnotations (activity : PipelineActivity)
    (channel messageType : String) : Option MessageReference :=
  match activity.Annotations with
  | none => none
  | some annotations =>
    let key := annotationKey channel messageType
    let value := GoMap.index annotations key
    if value ≠ "" then
      match strings.SplitN value '/' 2 with
      | v0 :: v1 :: _ => some ⟨v0, v1⟩
      | _ => none
    else none

/-! ## Collaborators and effects -/

/-- The fields of `slack.AttachmentAction` that the code fills in; `TypeName`
is the Go field `Type`. -/
structure AttachmentAction where
  TypeName : String := ""
  Text : String := ""
  URL : String := ""
  deriving DecidableEq, Repr

/-- The fields of `slack.AttachmentField` that the code fills in. -/
structure AttachmentField where
  Value : String := ""
  Short : Bool := false
  deriving DecidableEq, Repr

/-- The fields of `slack.Attachment` that the code fills in. -/
structure Attachment where
  CallbackID : String := ""
  Color : String := ""
  Title : String := ""
  Text : String := ""
  Fallback : String := ""
  Ts : String := ""
  Actions : List AttachmentAction := []
  Fields : List AttachmentField := []
  deriving DecidableEq, Repr

/-- The `slack.MsgOption` values the code builds. -/
inductive MsgOption where
  /-- The option `slack.MsgOptionAttachments(attachments...)`. -/
  | attachments (items : List Attachment)
  /-- The option `slack.MsgOptionUpdate(timestamp)`: edit the message with that
  timestamp instead of creating one. -/
  | update (timestamp : String)
  deriving DecidableEq, Repr

/-- A call made to a collaborator. -/
inductive Event where
  /-- The call `SlackClient.OpenConversation` for one user. -/
  | openConversation (user : String)
  /-- The call `SlackClient.SendMessage(channelId, options...)`. -/
  | sendMessage (channelId : String) (options : List MsgOption)
  /-- The call `annotatePipelineActivity(ctx, activity, key, value)`. -/
  | annotate (activityName key value : String)
  deriving DecidableEq, Repr

/-- The part of `SlackBotOptions` used by `postMessage`: the in-memory cache
`Timestamps` (channel, then activity name) and the answers of the
collaborators.

`OpenConversation user` answers the ID of the opened conversation or an
error. `SendMessage` answers the three results of the Go call (channel ID,
timestamp, error). `PatchActivity activity key value` is the result of
`annotatePipelineActivity`, that is of building, marshalling and sending the
patch that sets the annotation on the stored activity. -/
structure SlackBotOptions where
  Timestamps : GoMap (GoMap MessageReference) := []
  OpenConversation : String → Except GoError String
  SendMessage : String → List MsgOption → String × String × Option GoError
  PatchActivity : PipelineActivity → String → String → Option GoError

/-- The read `o.Timestamps[channel][name]`; a missing inner map reads as
`nil`. -/
def SlackBotOptions.cached (o : SlackBotOptions) (channel name : String) :
    Option MessageReference :=
  match GoMap.find o.Timestamps channel with
  | none => none
  | some inner => GoMap.find inner name

/-- What one call of `postMessage` leaves behind: the receiver after the call,
the collaborator calls made, in order, and the returned error. -/
structure PostResult where
  o : SlackBotOptions
  log : List Event
  err : Option GoError

/-- The value of `messageRef` in `postMessage` after both lookups (the
annotation first, the in-memory cache when the annotation gave nothing). -/
def postMessage_messageRef (o : SlackBotOptions) (channel messageType : String)
    (activity : PipelineActivity) : Option MessageReference :=
  match findMessageRefViaAnnotations activity channel messageType with
  | some ref => some ref
  | none => o.cached channel activity.Name

/-- The loop `for _, a := range all` at the end of `postMessage`: every
activity whose annotation differs from `value` is patched, and the first
failing patch returns its error from `postMessage`. -/
def postMessage_annotateAll (o : SlackBotOptions) (key value : String) :
    List PipelineActivity → List Event × Option GoError
  | [] => ([], none)
  | a :: rest =>
    if a.annotationAt key ≠ value then
      match o.PatchActivity a key value with
      | some e => ([Event.annotate a.Name key value], some e)
      | none =>
        let r := postMessage_annotateAll o key value rest
        (Event.annotate a.Name key value :: r.1, r.2)
    else postMessage_annotateAll o key value rest

/-- The statements of `postMessage` that allocate the cache: after them
`o.Timestamps[channel]` is a map, an empty one when it was missing. -/
def postMessage_ensureChannel (o : SlackBotOptions) (channel : String) : SlackBotOptions :=
  match GoMap.find o.Timestamps channel with
  | some _ => o
  | none => { o with Timestamps := GoMap.insert o.Timestamps channel [] }

/-- The assignment `o.Timestamps[channel][name] = &MessageReference{...}` of
`postMessage`: the inner map of the channel gets the entry. -/
def postMessage_record (o : SlackBotOptions) (channel name : String)
    (ref : MessageReference) : SlackBotOptions :=
  let inner : GoMap MessageReference :=
    match GoMap.find o.Timestamps channel with
    | some m => m
    | none => []
  { o with Timestamps := GoMap.insert o.Timestamps channel (GoMap.insert inner name ref) }

/-- The write-back at the end of `postMessage`: the annotation `key = value`
is patched onto `activity` when `all` is `nil`, and onto the activities of
`all` otherwise, in both cases only where the annotation differs. -/
def postMessage_writeBack (o : SlackBotOptions) (activity : PipelineActivity)
    (all : Option (List PipelineActivity)) (key value : String) :
    List Event × Option GoError :=
  match all with
  | none =>
    if activity.annotationAt key ≠ value then
      ([Event.annotate activity.Name key value], o.PatchActivity activity key value)
    else ([], none)
  | some targets => postMessage_annotateAll o key value targets

/-- The block `if post { ... }` of `postMessage`: send to `channelId` with
`options`, record the answer in the cache, write the annotation back. `o1` is
the receiver with the cache allocated and `log` the calls made so far. -/
def postMessage_send (o o1 : SlackBotOptions) (channel messageType : String)
    (activity : PipelineActivity) (all : Option (List PipelineActivity))
    (channelId : String) (options : List MsgOption) (log : List Event) : PostResult :=
  match o.SendMessage channelId options with
  | (sentChannelId, sentTimestamp, some e) =>
    ⟨o1, log ++ [Event.sendMessage channelId options],
      some (GoError.wrap ("(post channelId: " ++ sentChannelId ++ ", timestamp: "
        ++ sentTimestamp ++ ")") e)⟩
  | (sentChannelId, sentTimestamp, none) =>
    let o2 := postMessage_record o1 channel activity.Name ⟨sentChannelId, sentTimestamp⟩
    let key := annotationKey channel messageType
    let value := annotationValue sentChannelId sentTimestamp
    let written := postMessage_writeBack o activity all key value
    ⟨o2, log ++ [Event.sendMessage channelId options] ++ written.1, written.2⟩

/-- The value of `timestamp` in `postMessage` after the lookups. -/
def postMessage_timestamp (messageRef : Option MessageReference) : String :=
  match messageRef with
  | some ref => ref.Timestamp
  | none => ""

/-- The value of `channelId` in `postMessage` after the lookups. -/
def postMessage_channelId (messageRef : Option MessageReference) (channel : String) : String :=
  match messageRef with
  | some ref => ref.ChannelID
  | none => channel

/-- The method `postMessage`. `all` is `none` for a `nil` slice. -/
def postMessage (o : SlackBotOptions) (channel : String) (directMessage : Bool)
    (messageType : String) (activity : PipelineActivity)
    (all : Option (List PipelineActivity)) (options : List MsgOption)
    (createIfMissing : Bool) : PostResult :=
  let messageRef := postMessage_messageRef o channel messageType activity
  let timestamp := postMessage_timestamp messageRef
  let channelId := postMessage_channelId messageRef channel
  let o1 := postMessage_ensureChannel o channel
  let opened : Except GoError (String × List Event) :=
    if directMessage then
      match o.OpenConversation channel with
      | Except.error e => Except.error e
      | Except.ok id => Except.ok (id, [Event.openConversation channel])
    else Except.ok (channelId, [])
  match opened with
  | Except.error e =>
    ⟨o1, [Event.openConversation channel],
      some (GoError.wrap ("(open converation channelId: " ++ channelId ++ ")") e)⟩
  | Except.ok (channelId, log) =>
    let post : Bool := if timestamp ≠ "" then true else createIfMissing
    let options : List MsgOption :=
      if timestamp ≠ "" then options ++ [MsgOption.update timestamp] else options
    if post then postMessage_send o o1 channel messageType activity all channelId options log
    else ⟨o1, log, none⟩

/-- The `SendMessage` calls of a log, in order: the channel ID addressed and
the options passed. -/
def sends : List Event → List (String × List MsgOption)
  | [] => []
  | Event.sendMessage channelId options :: rest => (channelId, options) :: sends rest
  | _ :: rest => sends rest

/-- The `annotatePipelineActivity` calls of a log, in order: the name of the
activity patched. -/
def annotated : List Event → List String
  | [] => []
  | Event.annotate name _ _ :: rest => name :: annotated rest
  | _ :: rest => annotated rest

/-- The `OpenConversation` calls of a log, in order: the user addressed. -/
def opened : List Event → List String
  | [] => []
  | Event.openConversation user :: rest => user :: opened rest
  | _ :: rest => opened rest

/-- The three ways a call of `postMessage` can end, as a predicate on its
result `r`: no message was sent; one message was sent and the transport
failed; one message was sent, the transport answered `(cid, ts)`, the answer
was recorded in the cache and the write-back ran. -/
def PostShape (o : SlackBotOptions) (channel : String) (directMessage : Bool)
    (messageType : String) (activity : PipelineActivity)
    (all : Option (List PipelineActivity)) (r : PostResult) : Prop :=
  (sends r.log = [] ∧ r.o = postMessage_ensureChannel o channel) ∨
  (∃ target opts cid ts e,
    sends r.log = [(target, opts)] ∧ o.SendMessage target opts = (cid, ts, some e) ∧
    r.o = postMessage_ensureChannel o channel) ∨
  (∃ target opts cid ts,
    o.SendMessage target opts = (cid, ts, none) ∧
    r = ⟨postMessage_record (postMessage_ensureChannel o channel) channel activity.Name
          ⟨cid, ts⟩,
        (if directMessage then [Event.openConversation channel] else []) ++
          [Event.sendMessage target opts] ++
          (postMessage_writeBack o activity all (annotationKey channel messageType)
            (annotationValue cid ts)).1,
        (postMessage_writeBack o activity all (annotationKey channel messageType)
            (annotationValue cid ts)).2⟩)

/-! ## Pull requests, configuration and the activities of a pull request -/

/-- The struct `PipelineDetails`. -/
structure PipelineDetails where
  GitOwner : String
  GitRepository : String
  BranchName : String
  Pipeline : String
  Build : String
  Context : String
  deriving DecidableEq, Repr

/-- The function `CreatePipelineDetails`. -/
def CreatePipelineDetails (activity : PipelineActivity) : PipelineDetails :=
  let spec := activity.Spec
  -- `paths[0], paths[1], paths[2]` when `pipeline != ""` and `len(paths) > 2`
  let paths : Option (String × String × String) :=
    if spec.Pipeline ≠ "" then
      match strings.Split spec.Pipeline '/' with
      | p0 :: p1 :: p2 :: _ => some (p0, p1, p2)
      | _ => none
    else none
  let repoOwner : String :=
    match paths with
    | some (p0, _, _) => if spec.GitOwner = "" then p0 else spec.GitOwner
    | none => spec.GitOwner
  let repoName : String :=
    match paths with
    | some (_, p1, _) => if spec.GitRepository = "" then p1 else spec.GitRepository
    | none => spec.GitRepository
  let branchName0 : String :=
    match paths with
    | some (_, _, p2) => p2
    | none => ""
  let branchName : String := if branchName0 = "" then "master" else branchName0
  let pipeline : String :=
    if spec.Pipeline = "" ∧ (repoName ≠ "" ∧ repoOwner ≠ "") then
      repoOwner ++ "/" ++ repoName ++ "/" ++ branchName
    else spec.Pipeline
  { GitOwner := repoOwner, GitRepository := repoName, BranchName := branchName,
    Pipeline := pipeline, Build := spec.Build, Context := spec.Context }

/-- The function `getPullRequestNumber`: both results of the Go function. -/
def getPullRequestNumber (activity : PipelineActivity) : Int × Option GoError :=
  let pipelineDetails := CreatePipelineDetails activity
  if strings.HasPrefix (strings.ToLower pipelineDetails.BranchName) "pr-" then
    strconv.Atoi (strings.TrimPrefix (strings.ToLower pipelineDetails.BranchName) "pr-")
  else (0, none)

/-- The field of `scm.Label` that the code reads. -/
structure Label where
  Name : String := ""
  deriving DecidableEq, Repr

/-- The fields of `scm.User` that the code reads. -/
structure User where
  Login : String := ""
  Name : String := ""
  deriving DecidableEq, Repr

/-- The fields of `scm.PullRequest` that the code reads. `Updated` is in Unix
seconds. -/
structure PullRequest where
  Author : User := {}
  Reviewers : List User := []
  Labels : List Label := []
  Merged : Bool := false
  Closed : Bool := false
  Updated : Int := 0
  Link : String := ""
  Title : String := ""
  deriving DecidableEq, Repr

/-- The fields of `v1alpha1.SlackNotify` that the code reads; the boolean
flags are the values of `ToBool()`. -/
structure SlackNotify where
  Channel : String := ""
  Disable : Bool := false
  DirectMessage : Bool := false
  NotifyReviewers : Bool := false
  IgnorePullLabels : List String := []
  deriving DecidableEq, Repr

/-- The field of `slack.User` that the code reads. -/
structure SlackUser where
  ID : String := ""
  deriving DecidableEq, Repr

/-- The entries of a `slackapp.Statuses` table. -/
inductive StatusKind where
  | Merged | Closed | Aborted | Errored | Failed | Approved | NotApproved
  | NeedsOkToTest | Hold | Pending | Running | Succeeded | LGTM | Unknown
  deriving DecidableEq, Repr

/-- A non-nil `*slackapp.Status`: it points either into the package variable
`defaultStatuses` or into the configured table `o.Statuses`. The code
compares these pointers, so the model keeps the identity of the pointee. -/
inductive StatusPtr where
  | defaultStatuses (entry : StatusKind)
  | override (entry : StatusKind)
  deriving DecidableEq, Repr

/-- The struct `slackapp.Status`. -/
structure Status where
  Emoji : String := ""
  Text : String := ""
  deriving DecidableEq, Repr

/-- The package variable `defaultStatuses`, entry by entry. -/
def defaultStatuses : StatusKind → Status
  | StatusKind.Merged => { Emoji := ":purple_heart:", Text := "merged" }
  | StatusKind.Closed => { Emoji := ":closed_book:", Text := "closed and not merged" }
  | StatusKind.Aborted => { Emoji := ":red_circle:", Text := "build aborted" }
  | StatusKind.Errored => { Emoji := ":red_circle:", Text := "build errored" }
  | StatusKind.Failed => { Emoji := ":red_circle:", Text := "build failed" }
  | StatusKind.Approved => { Emoji := ":+1:", Text := "approved" }
  | StatusKind.NotApproved => { Emoji := ":wave:", Text := "not approved" }
  | StatusKind.NeedsOkToTest => { Emoji := ":wave:", Text := "needs /ok-to-test" }
  | StatusKind.Hold => { Emoji := ":octagonal_sign:", Text := "hold" }
  | StatusKind.Pending => { Emoji := ":question:", Text := "build pending" }
  | StatusKind.Running => { Emoji := ":white_circle:", Text := "build running" }
  | StatusKind.Succeeded => { Emoji := ":white_check_mark:", Text := "build succeeded" }
  | StatusKind.LGTM => { Emoji := ":+1:", Text := "lgtm" }
  | StatusKind.Unknown => { Emoji := ":grey_question:", Text := "" }

/-- The fields of `jenkinsv1.UserDetails` that the code reads. -/
structure UserDetails where
  Name : String := ""
  URL : String := ""
  Email : String := ""
  deriving DecidableEq, Repr

/-- The constant `jenkinsv1.ActivityStatusTypePending`. -/
def ActivityStatusTypePending : String := "Pending"

/-- The constant `jenkinsv1.ActivityStatusTypeRunning`. -/
def ActivityStatusTypeRunning : String := "Running"

/-- The constant `jenkinsv1.ActivityStatusTypeSucceeded`. -/
def ActivityStatusTypeSucceeded : String := "Succeeded"

/-- The constant `jenkinsv1.ActivityStatusTypeFailed`. -/
def ActivityStatusTypeFailed : String := "Failed"

/-- The constant `jenkinsv1.ActivityStatusTypeError`. -/
def ActivityStatusTypeError : String := "Error"

/-- The constant `jenkinsv1.ActivityStatusTypeAborted`. -/
def ActivityStatusTypeAborted : String := "Aborted"

/-- How a Go call ends: it returns a value, returns an error, or panics. -/
inductive Outcome (α : Type) where
  | ok (value : α)
  | error (err : GoError)
  | panic
  deriving DecidableEq, Repr

/-- The collaborators read by the coordinator; none of these calls changes
anything outside, so they are not logged.

* `SlackConfigFor owner repo` is `GetOrCreateRepositoryFor(...).Slack`.
* `ParseGitURL url` answers the organisation and name of `giturl.ParseGitURL`.
* `FindPullRequest fullName number` answers the two results kept from
  `ScmClient.PullRequests.Find`.
* `getPipelineActivities owner repo prn` is the query of the activities of a
  pull request, whose code is not part of the file.
* `Statuses` is the configured table `o.Statuses`, `none` for a `nil` entry.
* `Resolve user` answers the two results of `resolver.Resolve`, and
  `GitProviderKey` is `resolver.GitProviderKey()`.
* `SlackUserLogin user` answers the two results of
  `o.SlackUserResolver.SlackUserLogin`; `none` is a `nil` user.
* `shouldSendPipelineMessage` is the method of that name, whose code is not
  part of the file.
* `Now` is `time.Now().Unix()`. -/
structure Collaborators where
  SlackConfigFor : String → String → Option SlackNotify
  ParseGitURL : String → Except GoError (String × String)
  FindPullRequest : String → Int → Option PullRequest × Option GoError
  getPipelineActivities : String → String → Int → Except GoError (List PipelineActivity)
  Statuses : StatusKind → Option Status := fun _ => none
  Resolve : User → Option UserDetails × Option GoError :=
    fun user => (some { Name := user.Name }, none)
  GitProviderKey : String := "github"
  SlackUserLogin : Option UserDetails → String × Option GoError := fun _ => ("", none)
  shouldSendPipelineMessage : PipelineActivity → SlackNotify → Bool := fun _ _ => true
  Now : Int := 1700000000

/-- The method `getSlackConfigForPipeline`. -/
def getSlackConfigForPipeline (c : Collaborators) (activity : PipelineActivity) :
    Option SlackNotify :=
  c.SlackConfigFor activity.Spec.GitOwner activity.Spec.GitRepository

/-- The method `getPullRequest`, without its `resolver` result: the resolver
is `nil` only when the pull request is, and every use of it comes after a use
of the pull request. -/
def getPullRequest (c : Collaborators) (activity : PipelineActivity) :
    Option PullRequest × Option GoError :=
  match getPullRequestNumber activity with
  | (prn, err) =>
    if prn > 0 then
      match err with
      | some e => (none, some e)
      | none =>
        if activity.Spec.GitURL = "" then
          (none, some (GoError.msg ("no GitURL on PipelineActivity " ++ activity.Name)))
        else
          match c.ParseGitURL activity.Spec.GitURL with
          | Except.error e =>
            (none, some (GoError.wrap ("failed to parse git URL " ++ activity.Spec.GitURL) e))
          | Except.ok (organisation, name) =>
            match getPullRequestNumber activity with
            | (_, some e) => (none, some e)
            | (prn2, none) => c.FindPullRequest (organisation ++ "/" ++ name) prn2
    else (none, none)

/-- The label names collected in `found` by the two loops of `isEnabled`. -/
def isEnabled_found (ignoreLabels : List String) (labels : List Label) : List String :=
  ignoreLabels.flatMap (fun l => (labels.filter (fun v => v.Name = l)).map (fun v => v.Name))

/-- The method `isEnabled`: the flag and the pull request it returns. Reading
`pr.Labels` through a `nil` pull request panics. -/
def isEnabled (c : Collaborators) (activity : PipelineActivity)
    (ignoreLabels : List String) : Outcome (Bool × Option PullRequest) :=
  match getPullRequest c activity with
  | (_, some e) => Outcome.error e
  | (pr, none) =>
    if ignoreLabels.length > 0 then
      match pr with
      | none => Outcome.panic
      | some p =>
        if (isEnabled_found ignoreLabels p.Labels).length > 0 then Outcome.ok (false, none)
        else Outcome.ok (true, pr)
    else Outcome.ok (true, pr)

/-- Modelled from the spec: the sort key of `byBuildNumber`, whose declaration
is not part of the file. The spec orders the activities "by build number
ascending", the build number being "a string that must parse as an integer". -/
def byBuildNumber_key (a : PipelineActivity) : Int :=
  (strconv.Atoi a.Spec.Build).1

/-- Modelled from the spec: the method `Less` of `byBuildNumber`, the numeric
comparison of the two build numbers. -/
def byBuildNumber_Less (a b : PipelineActivity) : Bool :=
  decide (byBuildNumber_key a < byBuildNumber_key b)

/-- Modelled from the spec: `sort.Sort(byBuildNumber(items))`. The result of
`sort.Sort` is an arrangement of the items in which no item is `Less` than an
item before it; insertion sort computes one such arrangement (Go does not
promise which one among items with equal keys). By the spec "a parse failure
is a hard error"; `Less` has no error result, so it is a panic here.
`sort.Sort` compares nothing in a list of fewer than two items and compares
every item of a longer list, so the panic needs two items or more. -/
def sortByBuildNumber (items : List PipelineActivity) : Outcome (List PipelineActivity) :=
  if items.length < 2 ∨ items.all (fun a => (strconv.Atoi a.Spec.Build).2 = none) then
    Outcome.ok (items.insertionSort (fun a b => byBuildNumber_Less b a = false))
  else Outcome.panic

/-- The results `oldest`, `latest` and `all` of `findPipelineActivities`. -/
structure FoundActivities where
  oldest : Option PipelineActivity
  latest : Option PipelineActivity
  all : Option (List PipelineActivity)
  deriving DecidableEq, Repr

/-- The method `findPipelineActivities`. -/
def findPipelineActivities (c : Collaborators) (activity : PipelineActivity) :
    Outcome FoundActivities :=
  match getPullRequestNumber activity with
  | (_, some e) => Outcome.error e
  | (prn, none) =>
    let pipelineDetails := CreatePipelineDetails activity
    match c.getPipelineActivities pipelineDetails.GitOwner pipelineDetails.GitRepository prn with
    | Except.error e => Outcome.error e
    | Except.ok items =>
      if items.length > 0 then
        match sortByBuildNumber items with
        | Outcome.ok sorted => Outcome.ok ⟨sorted.head?, sorted.getLast?, some sorted⟩
        | Outcome.error e => Outcome.error e
        | Outcome.panic => Outcome.panic
      else Outcome.ok ⟨none, none, none⟩

/-! ## The review request coordinator -/

/-- The function `channelName`. -/
def channelName (channel : String) : String :=
  if !strings.HasPrefix channel "#" then "#" ++ channel else channel

/-- How a coordinator call ends. -/
inductive Exit where
  /-- The call returned this `error` (`none` is `nil`). -/
  | returned (err : Option GoError)
  /-- The call panicked. -/
  | panicked
  deriving DecidableEq, Repr

/-- What a coordinator call leaves behind: the receiver after the call, the
calls made to the Slack transport and to the annotation patcher, in order,
and how the call ended. -/
structure CallResult where
  o : SlackBotOptions
  log : List Event
  exit : Exit

/-- The results of `createReviewersMessage` other than the error: the
attachments (`none` is a `nil` slice), the reviewers (`none` is a `nil`
pointer) and the build status pointer. -/
structure ReviewersMessage where
  attachments : Option (List Attachment)
  reviewers : List (Option SlackUser)
  buildStatus : Option StatusPtr
  deriving DecidableEq, Repr

/-- The loop `for _, user := range reviewers` of `ReviewRequestMessage`: one
direct message per non-nil reviewer, stopping at the first failure. -/
def ReviewRequestMessage_direct (activityName : String) (oldestActivity : PipelineActivity)
    (all : Option (List PipelineActivity)) (options : List MsgOption)
    (createIfMissing : Bool) : SlackBotOptions → List (Option SlackUser) → CallResult
  | o, [] => ⟨o, [], Exit.returned none⟩
  | o, none :: rest =>
    ReviewRequestMessage_direct activityName oldestActivity all options createIfMissing o rest
  | o, some user :: rest =>
    let r := postMessage o user.ID true pullRequestReviewMessageType oldestActivity all
      options createIfMissing
    match r.err with
    | some e =>
      ⟨r.o, r.log, Exit.returned (some (GoError.wrap
        ("error sending direct PR review request for " ++ activityName ++ " to " ++ user.ID) e))⟩
    | none =>
      let r2 := ReviewRequestMessage_direct activityName oldestActivity all options
        createIfMissing r.o rest
      ⟨r2.o, r.log ++ r2.log, r2.exit⟩

/-- The branch `if buildNumber >= latestBuildNumber { ... }` of
`ReviewRequestMessage`: compose the review message and post it to the channel
and to the reviewers. The composer `createReviewersMessage` is passed in. -/
def ReviewRequestMessage_post
    (createReviewersMessage :
      PipelineActivity → Bool → Option PullRequest → Outcome ReviewersMessage)
    (o : SlackBotOptions) (cfg : SlackNotify) (activity : PipelineActivity)
    (pullRequest : Option PullRequest) (oldestActivity : PipelineActivity)
    (all : Option (List PipelineActivity)) : CallResult :=
  match createReviewersMessage activity cfg.NotifyReviewers pullRequest with
  | Outcome.panic => ⟨o, [], Exit.panicked⟩
  | Outcome.error e => ⟨o, [], Exit.returned (some e)⟩
  | Outcome.ok message =>
    let createIfMissing : Bool :=
      if message.buildStatus = some (StatusPtr.defaultStatuses StatusKind.Merged)
          ∨ message.buildStatus = some (StatusPtr.defaultStatuses StatusKind.Closed) then false
      else true
    match message.attachments with
    | none => ⟨o, [], Exit.returned none⟩
    | some attachments =>
      let options := [MsgOption.attachments attachments]
      let posted : PostResult :=
        if cfg.Channel ≠ "" then
          postMessage o (channelName cfg.Channel) false pullRequestReviewMessageType
            oldestActivity all options createIfMissing
        else ⟨o, [], none⟩
      match posted.err with
      | some e =>
        ⟨posted.o, posted.log, Exit.returned (some (GoError.wrap
          ("error posting PR review request for " ++ activity.Name ++ " to channel "
            ++ channelName cfg.Channel) e))⟩
      | none =>
        if cfg.DirectMessage ∧ cfg.NotifyReviewers then
          let r := ReviewRequestMessage_direct activity.Name oldestActivity all options
            createIfMissing posted.o message.reviewers
          ⟨r.o, posted.log ++ r.log, r.exit⟩
        else ⟨posted.o, posted.log, Exit.returned none⟩

/-- The method `ReviewRequestMessage`. The composer of the message text,
`createReviewersMessage`, is a parameter: what it answers for an activity, the
notify flag and the pull request. The method of the source is this one with
the composer `createReviewersMessage c`, defined below. -/
def ReviewRequestMessage
    (createReviewersMessage :
      PipelineActivity → Bool → Option PullRequest → Outcome ReviewersMessage)
    (c : Collaborators) (o : SlackBotOptions) (activity : PipelineActivity) : CallResult :=
  if activity.Name = "" then
    ⟨o, [], Exit.returned (some (GoError.msg "PipelineActivity name cannot be empty"))⟩
  else
    match getPullRequestNumber activity with
    | (_, some e) =>
      ⟨o, [], Exit.returned (some (GoError.wrap
        ("getting pull request number " ++ activity.Name) e))⟩
    | (prn, none) =>
      if prn ≤ 0 then ⟨o, [], Exit.returned none⟩
      else
        match getSlackConfigForPipeline c activity with
        | none => ⟨o, [], Exit.returned none⟩
        | some cfg =>
          if cfg.Channel = "" ∨ cfg.Disable then ⟨o, [], Exit.returned none⟩
          else
            match isEnabled c activity cfg.IgnorePullLabels with
            | Outcome.panic => ⟨o, [], Exit.panicked⟩
            | Outcome.error e => ⟨o, [], Exit.returned (some e)⟩
            | Outcome.ok (false, _) => ⟨o, [], Exit.returned none⟩
            | Outcome.ok (true, pullRequest) =>
              match findPipelineActivities c activity with
              | Outcome.panic => ⟨o, [], Exit.panicked⟩
              | Outcome.error e => ⟨o, [], Exit.returned (some e)⟩
              | Outcome.ok found =>
                match strconv.Atoi (CreatePipelineDetails activity).Build with
                | (_, some e) => ⟨o, [], Exit.returned (some e)⟩
                | (buildNumber, none) =>
                  let latestBuildNumber : Int :=
                    match found.latest with
                    | some latestActivity =>
                      (strconv.Atoi (CreatePipelineDetails latestActivity).Build).1
                    | none => -1
                  let oldestActivity : PipelineActivity :=
                    match found.oldest with
                    | some a => a
                    | none => activity
                  if buildNumber ≥ latestBuildNumber then
                    ReviewRequestMessage_post createReviewersMessage o cfg activity
                      pullRequest oldestActivity found.all
                  else ⟨o, [], Exit.returned none⟩


/-! ## Message composition -/

/-- The function `getStatus`, on pointers. -/
def getStatus (overrideStatus : Option StatusPtr) (defaultStatus : StatusPtr) : StatusPtr :=
  match overrideStatus with
  | none => defaultStatus
  | some status => status

/-- The pointer `o.Statuses.<entry>`: `nil` when the entry is not configured. -/
def statusOverride (c : Collaborators) (entry : StatusKind) : Option StatusPtr :=
  match c.Statuses entry with
  | none => none
  | some _ => some (StatusPtr.override entry)

/-- The `slackapp.Status` a pointer points to. -/
def statusAt (c : Collaborators) : StatusPtr → Status
  | StatusPtr.defaultStatuses entry => defaultStatuses entry
  | StatusPtr.override entry =>
    match c.Statuses entry with
    | some status => status
    | none => defaultStatuses entry

/-- The function `link`. -/
def link (text url : String) : String :=
  if url ≠ "" then "<" ++ url ++ "|" ++ (if text = "" then url else text) ++ ">"
  else text

/-- The function `mentionUser`. -/
def mentionUser (id : String) : String :=
  "<@" ++ id ++ ">"

/-- The method `mentionOrLinkUser`. -/
def mentionOrLinkUser (c : Collaborators) (user : UserDetails) : String × Option GoError :=
  match c.SlackUserLogin (some user) with
  | (_, some e) => ("", some e)
  | (id, none) =>
    if id ≠ "" then (mentionUser id, none)
    else if user.Name ≠ "" ∧ user.URL ≠ "" then (link user.Name user.URL, none)
    else if user.Name ≠ "" then (user.Name, none)
    else ("", none)

/-- The method `resolveGitUserToSlackUser`. -/
def resolveGitUserToSlackUser (c : Collaborators) (user : User) : String × Option GoError :=
  match c.Resolve user with
  | (_, some e) => ("", some e)
  | (resolved, none) => c.SlackUserLogin resolved

/-- The function `pullRequestName`. -/
def pullRequestName (url : String) : String :=
  let idx := strings.LastIndex url '/'
  if idx > 0 then "#" ++ ⟨url.data.drop (idx.toNat + 1)⟩ else url

/-- The function `repositoryName`. -/
def repositoryName (act : PipelineActivity) : String :=
  let details := CreatePipelineDetails act
  let gitURL := act.Spec.GitURL
  let trimmed := strings.TrimSuffix gitURL "/"
  let idx := strings.LastIndex trimmed '/'
  let ownerURL : String := if idx > 0 then ⟨trimmed.data.take (idx.toNat + 1)⟩ else trimmed
  link details.GitOwner ownerURL ++ "/" ++ link details.GitRepository gitURL

/-- The function `buildNumber`. -/
def buildNumber (spec : PipelineActivitySpec) : String :=
  link ("#" ++ spec.Build) spec.BuildURL

/-- The function `pipelineStatus`: a succeeded activity keeps its status,
every other one takes the status of its last stage or promotion step. -/
def pipelineStatus (activity : PipelineActivity) : String :=
  if activity.Spec.Status = ActivityStatusTypeSucceeded then activity.Spec.Status
  else
    activity.Spec.Steps.foldl
      (fun statusType step =>
        match step.Stage with
        | some stageStatus => stageStatus
        | none =>
          match step.Promote with
          | some promoteStatus => promoteStatus
          | none => statusType)
      activity.Spec.Status

/-- The function `pipelineIcon`: every case returns the empty string. -/
def pipelineIcon (_statusType : String) : String := ""

/-- The function `attachmentColor`. -/
def attachmentColor (statusType : String) : String :=
  if statusType = ActivityStatusTypeFailed ∨ statusType = ActivityStatusTypeError then "danger"
  else if statusType = ActivityStatusTypeSucceeded then "good"
  else if statusType = ActivityStatusTypeRunning then "#3AA3E3"
  else ""

/-- The function `pipelineName`. -/
def pipelineName (activity : PipelineActivity) : String × Option GoError :=
  if strings.HasSuffix activity.Spec.Pipeline "/master" then ("Release Pipeline", none)
  else
    match getPullRequestNumber activity with
    | (_, some e) =>
      ("", some (GoError.wrap ("getting pull request number from " ++ activity.Name) e))
    | (prn, none) => if prn > 0 then ("Pull Request Pipeline", none) else ("Pipeline", none)

/-- The function `containsOneOf`. -/
def containsOneOf (a : List Label) (x : List String) : Bool :=
  a.any (fun n => x.any (fun y => decide (y = n.Name)))

/-- The method `isLgtmRepo`: its body is commented out and it answers false. -/
def isLgtmRepo (_activity : PipelineActivity) : Bool × Option GoError := (false, none)

/-- The function `getLastUpdatedTime`; the activity is never `nil` at its two
call sites. -/
def getLastUpdatedTime (pr : Option PullRequest) (activity : PipelineActivity) : Int :=
  let fromPullRequest : Int :=
    match pr with
    | some p => p.Updated
    | none => -1
  let afterStart : Int :=
    match activity.Spec.StartedTimestamp with
    | some start => if start > fromPullRequest then start else fromPullRequest
    | none => fromPullRequest
  match activity.Spec.CompletedTimestamp with
  | some completed => if completed > afterStart then completed else afterStart
  | none => afterStart

/-- The loop over `pr.Reviewers` of `createReviewersMessage`: the mention of
every reviewer that resolves to a user. Nothing is appended to `reviewers` in
that loop. -/
def createReviewersMessage_mentions (c : Collaborators) : List User → Outcome (List String)
  | [] => Outcome.ok []
  | r :: rest =>
    match c.Resolve r with
    | (_, some e) =>
      Outcome.error (GoError.wrap
        ("resolving " ++ c.GitProviderKey ++ " user " ++ r.Login ++ " as Jenkins X user") e)
    | (none, none) => createReviewersMessage_mentions c rest
    | (some u, none) =>
      match mentionOrLinkUser c u with
      | (_, some e) =>
        Outcome.error (GoError.wrap
          ("generating mention or link for user record " ++ u.Name ++ " with email "
            ++ u.Email) e)
      | (mention, none) =>
        match createReviewersMessage_mentions c rest with
        | Outcome.ok mentions => Outcome.ok (mention :: mentions)
        | Outcome.error e => Outcome.error e
        | Outcome.panic => Outcome.panic

/-- The review status chosen by `createReviewersMessage` from the labels. -/
def createReviewersMessage_reviewStatus (c : Collaborators) (activity : PipelineActivity)
    (pr : PullRequest) : StatusPtr :=
  let notApproved :=
    getStatus (statusOverride c StatusKind.NotApproved)
      (StatusPtr.defaultStatuses StatusKind.NotApproved)
  let approved : StatusPtr :=
    if (isLgtmRepo activity).1 then
      (if containsOneOf pr.Labels ["lgtm"] then
        getStatus (statusOverride c StatusKind.LGTM) (StatusPtr.defaultStatuses StatusKind.LGTM)
       else notApproved)
    else
      (if containsOneOf pr.Labels ["approved"] then
        getStatus (statusOverride c StatusKind.Approved)
          (StatusPtr.defaultStatuses StatusKind.Approved)
       else notApproved)
  let held : StatusPtr :=
    if containsOneOf pr.Labels ["do-not-merge/hold"] then
      getStatus (statusOverride c StatusKind.Hold) (StatusPtr.defaultStatuses StatusKind.Hold)
    else approved
  if containsOneOf pr.Labels ["needs-ok-to-test"] then
    getStatus (statusOverride c StatusKind.NeedsOkToTest)
      (StatusPtr.defaultStatuses StatusKind.NeedsOkToTest)
  else held

/-- The build status chosen by `createReviewersMessage`: merged, else closed,
else by the status of the activity, else unknown. -/
def createReviewersMessage_buildStatus (c : Collaborators) (activity : PipelineActivity)
    (pr : PullRequest) : StatusPtr :=
  let entry (k : StatusKind) : StatusPtr :=
    getStatus (statusOverride c k) (StatusPtr.defaultStatuses k)
  if pr.Merged then entry StatusKind.Merged
  else if pr.Closed then entry StatusKind.Closed
  else if activity.Spec.Status = ActivityStatusTypePending then entry StatusKind.Pending
  else if activity.Spec.Status = ActivityStatusTypeRunning then entry StatusKind.Running
  else if activity.Spec.Status = ActivityStatusTypeSucceeded then entry StatusKind.Succeeded
  else if activity.Spec.Status = ActivityStatusTypeFailed then entry StatusKind.Failed
  else if activity.Spec.Status = ActivityStatusTypeError then entry StatusKind.Errored
  else if activity.Spec.Status = ActivityStatusTypeAborted then entry StatusKind.Aborted
  else entry StatusKind.Unknown

/-- The method `createReviewersMessage`. Taking `&pr.Author` of a `nil` pull
request panics. The slice `reviewers` is made empty and returned as made. -/
def createReviewersMessage (c : Collaborators) (activity : PipelineActivity)
    (notifyReviewers : Bool) (pr : Option PullRequest) : Outcome ReviewersMessage :=
  match pr with
  | none => Outcome.panic
  | some pr =>
    match c.Resolve pr.Author with
    | (_, some e) => Outcome.error e
    | (none, none) => Outcome.ok ⟨none, [], none⟩
    | (some author, none) =>
      let status := pipelineStatus activity
      match mentionOrLinkUser c author with
      | (_, some e) => Outcome.error e
      | (authorName, none) =>
        let reviewers : List (Option SlackUser) := []
        match (if notifyReviewers then createReviewersMessage_mentions c pr.Reviewers
               else Outcome.ok []) with
        | Outcome.panic => Outcome.panic
        | Outcome.error e => Outcome.error e
        | Outcome.ok mentions =>
          match isLgtmRepo activity with
          | (_, some e) =>
            Outcome.error (GoError.wrap
              ("checking if repo for " ++ activity.Name ++ " is configured for lgtm") e)
          | (_, none) =>
            let reviewStatus := statusAt c (createReviewersMessage_reviewStatus c activity pr)
            let buildStatus := createReviewersMessage_buildStatus c activity pr
            let mentionsString := strings.Join mentions " "
            let pleaseText := if mentions.length = 0 then "Please" else "please"
            let messageText :=
              mentionsString ++ " " ++ pleaseText ++ " review "
                ++ link ("Pull Request " ++ pullRequestName pr.Link ++ " (" ++ pr.Title ++ ")")
                    pr.Link
                ++ " created on " ++ repositoryName activity ++ " by " ++ authorName
            let updatedEpochTime := getLastUpdatedTime (some pr) activity
            let attachment : Attachment :=
              { CallbackID := "preview:" ++ activity.Name,
                Color := attachmentColor status,
                Text := messageText,
                Fallback := strings.Join [] ", ",
                Actions := [],
                Fields :=
                  [{ Value := reviewStatus.Emoji ++ " " ++ reviewStatus.Text, Short := true },
                   { Value := (statusAt c buildStatus).Emoji ++ " " ++ (statusAt c buildStatus).Text,
                     Short := true }],
                Ts := if updatedEpochTime > 0 then strconv.FormatInt updatedEpochTime else "" }
            Outcome.ok ⟨some [attachment], reviewers, some buildStatus⟩

/-- The fallback lines and link buttons of `createPipelineMessage`. -/
def createPipelineMessage_links (spec : PipelineActivitySpec) :
    List String × List AttachmentAction :=
  let repo : List String × List AttachmentAction :=
    if spec.GitURL ≠ "" then
      (["Repo: " ++ spec.GitURL],
        [{ TypeName := "button", Text := "Repository", URL := spec.GitURL }])
    else ([], [])
  let build : List String × List AttachmentAction :=
    if spec.BuildURL ≠ "" then
      (["Build: " ++ spec.BuildURL],
        [{ TypeName := "button", Text := "Pipeline", URL := spec.BuildURL }])
    else ([], [])
  let logs : List String × List AttachmentAction :=
    if spec.BuildLogsURL ≠ "" then
      (["Logs: " ++ spec.BuildLogsURL],
        [{ TypeName := "button", Text := "Build Logs",
           URL := strings.Replace spec.BuildLogsURL "gs://"
             "https://storage.cloud.google.com/" }])
    else ([], [])
  let notes : List String × List AttachmentAction :=
    if spec.ReleaseNotesURL ≠ "" then
      (["Release Notes: " ++ spec.BuildLogsURL],
        [{ TypeName := "button", Text := "Release Notes", URL := spec.ReleaseNotesURL }])
    else ([], [])
  (repo.1 ++ build.1 ++ logs.1 ++ notes.1, repo.2 ++ build.2 ++ logs.2 ++ notes.2)

/-- The method `createPipelineMessage`: the options and `createIfMissing`. On
an error Go returns `nil, false, err`. Reading `pr.Link` of a `nil` pull
request panics. -/
def createPipelineMessage (c : Collaborators) (activity : PipelineActivity)
    (pr : Option PullRequest) : Outcome (List MsgOption × Bool) :=
  let spec := activity.Spec
  let status := pipelineStatus activity
  let icon := pipelineIcon status
  match pipelineName activity with
  | (_, some e) =>
    Outcome.error (GoError.wrap ("getting pipeline name for " ++ activity.Name) e)
  | (name, none) =>
    let messageText := icon ++ name ++ " " ++ repositoryName activity
    match getPullRequestNumber activity with
    | (_, some e) => Outcome.error e
    | (prn, none) =>
      let linked : Outcome String :=
        if prn > 0 then
          match pr with
          | none => Outcome.panic
          | some p => Outcome.ok (messageText ++ link (pullRequestName p.Link) p.Link)
        else Outcome.ok messageText
      match linked with
      | Outcome.panic => Outcome.panic
      | Outcome.error e => Outcome.error e
      | Outcome.ok messageText =>
        let messageText := messageText ++ " (Build " ++ buildNumber spec ++ ")"
        let dayAgo : Int := c.Now - 24 * 60 * 60
        let lastUpdatedTime := getLastUpdatedTime none activity
        let createIfMissing : Bool := if lastUpdatedTime < dayAgo then false else true
        let links := createPipelineMessage_links spec
        let attachment : Attachment :=
          { CallbackID := "pipelineactivity:" ++ activity.Name,
            Color := attachmentColor status,
            Title := messageText,
            Fallback := strings.Join links.1 ", ",
            Actions := links.2,
            Ts := if lastUpdatedTime > 0 then strconv.FormatInt lastUpdatedTime else "" }
        Outcome.ok ([MsgOption.attachments [attachment]], createIfMissing)

/-! ## The pipeline coordinator -/

/-- The direct message to the author at the end of `PipelineMessage`. -/
def PipelineMessage_direct (c : Collaborators) (o : SlackBotOptions)
    (activity : PipelineActivity) (pullRequest : Option PullRequest)
    (options : List MsgOption) (createIfMissing : Bool) : CallResult :=
  match pullRequest with
  | none => ⟨o, [], Exit.returned none⟩
  | some pr =>
    match resolveGitUserToSlackUser c pr.Author with
    | (_, some e) =>
      ⟨o, [], Exit.returned (some (GoError.wrap
        ("Cannot resolve Slack ID for Git user " ++ pr.Author.Name) e))⟩
    | (id, none) =>
      if id ≠ "" then
        let r := postMessage o id true pipelineMessageType activity none options createIfMissing
        match r.err with
        | some e =>
          ⟨r.o, r.log, Exit.returned (some (GoError.wrap
            ("error sending direct pipeline for " ++ activity.Name ++ " to " ++ id) e))⟩
        | none => ⟨r.o, r.log, Exit.returned none⟩
      else ⟨o, [], Exit.returned none⟩

/-- The method `PipelineMessage`. -/
def PipelineMessage (c : Collaborators) (o : SlackBotOptions) (activity : PipelineActivity) :
    CallResult :=
  if activity.Name = "" then
    ⟨o, [], Exit.returned (some (GoError.msg "PipelineActivity name cannot be empty"))⟩
  else
    match getSlackConfigForPipeline c activity with
    | none => ⟨o, [], Exit.returned none⟩
    | some cfg =>
      if cfg.Channel = "" ∨ cfg.Disable then ⟨o, [], Exit.returned none⟩
      else
        let channel := channelName cfg.Channel
        match isEnabled c activity cfg.IgnorePullLabels with
        | Outcome.panic => ⟨o, [], Exit.panicked⟩
        | Outcome.error e => ⟨o, [], Exit.returned (some e)⟩
        | Outcome.ok (false, _) => ⟨o, [], Exit.returned none⟩
        | Outcome.ok (true, pullRequest) =>
          match createPipelineMessage c activity pullRequest with
          | Outcome.panic => ⟨o, [], Exit.panicked⟩
          | Outcome.error e => ⟨o, [], Exit.returned (some e)⟩
          | Outcome.ok (options, createIfMissing) =>
            let posted : PostResult :=
              if cfg.Channel ≠ "" ∧ c.shouldSendPipelineMessage activity cfg then
                postMessage o channel false pipelineMessageType activity none options
                  createIfMissing
              else ⟨o, [], none⟩
            match posted.err with
            | some e =>
              ⟨posted.o, posted.log, Exit.returned (some (GoError.wrap
                ("error posting cfg for " ++ activity.Name ++ " to channel " ++ channel) e))⟩
            | none =>
              if cfg.DirectMessage then
                let r := PipelineMessage_direct c posted.o activity pullRequest options
                  createIfMissing
                ⟨r.o, posted.log ++ r.log, r.exit⟩
              else ⟨posted.o, posted.log, Exit.returned none⟩

/-! ## Example inputs -/

/-- A transport that opens the conversation `D-<user>` and answers every send
with the addressed channel and the timestamp `1700000000.000100`; every patch
succeeds. The cache is empty. -/
def exampleBot : SlackBotOptions :=
  { OpenConversation := fun user => Except.ok ("D-" ++ user),
    SendMessage := fun channelId _ => (channelId, "1700000000.000100", none),
    PatchActivity := fun _ _ _ => none }

/-- A transport whose sends succeed with an empty timestamp. -/
def emptyTimestampBot : SlackBotOptions :=
  { OpenConversation := fun user => Except.ok ("D-" ++ user),
    SendMessage := fun channelId _ => (channelId, "", none),
    PatchActivity := fun _ _ _ => none }

/-- A transport that cannot open any conversation. -/
def closedBot : SlackBotOptions :=
  { OpenConversation := fun _ => Except.error (GoError.msg "user_not_found"),
    SendMessage := fun channelId _ => (channelId, "1700000000.000100", none),
    PatchActivity := fun _ _ _ => none }

/-- A store that refuses the patch of the activity `build-2` and accepts every
other patch. -/
def conflictBot : SlackBotOptions :=
  { OpenConversation := fun user => Except.ok ("D-" ++ user),
    SendMessage := fun channelId _ => (channelId, "1700000000.000100", none),
    PatchActivity := fun a _ _ =>
      if a.Name = "build-2" then some (GoError.msg "conflict") else none }

/-- A bot whose cache already holds a message for `build-1` in `#dev`. -/
def cachedBot : SlackBotOptions :=
  { exampleBot with
    Timestamps := [("#dev", [("build-1", ⟨"C0CACHED", "1600000000.000200"⟩)])] }

/-- An activity without annotations. -/
def exampleActivity : PipelineActivity := { Name := "build-1" }

/-- An activity whose pipeline annotation for `#dev` names a channel ID and an
empty timestamp. -/
def halfAnnotatedActivity : PipelineActivity :=
  { Name := "build-1",
    Annotations := some [("bot.slack.apps.jenkins-x.io-pipeline/dev", "C024BE91L/")] }

/-- An activity annotated with the pipeline message sent to the user `U1`. -/
def directAnnotatedActivity : PipelineActivity :=
  { Name := "build-1",
    Annotations :=
      some [("bot.slack.apps.jenkins-x.io-pipeline/U1", "C024BE91L/1700000000.000100")] }

/-- An activity annotated with the review message of `#dev`. -/
def reviewAnnotatedActivity : PipelineActivity :=
  { Name := "build-1",
    Annotations :=
      some [("bot.slack.apps.jenkins-x.io-pr/dev", "C024BE91L/1700000000.000100")] }

/-- An activity whose review annotation for `#dev` has no separator. -/
def malformedAnnotatedActivity : PipelineActivity :=
  { Name := "build-1",
    Annotations := some [("bot.slack.apps.jenkins-x.io-pr/dev", "C024BE91L")] }

/-- The activity `build-1` as the store holds it after the pipeline message of
`#dev` was written back. -/
def pipelineAnnotatedActivity : PipelineActivity :=
  { Name := "build-1",
    Annotations :=
      some [("bot.slack.apps.jenkins-x.io-pipeline/dev", "#dev/1700000000.000100")] }

/-- An activity annotated with the value written for the channel ID `C0/24`. -/
def slashAnnotatedActivity : PipelineActivity :=
  { Name := "build-1",
    Annotations :=
      some [(annotationKey "#dev" pullRequestReviewMessageType,
        annotationValue "C0/24" "1700000000.000100")] }

/-- The three activities of a pull request used as write-back targets. -/
def threeTargets : List PipelineActivity :=
  [{ Name := "build-1" }, { Name := "build-2" }, { Name := "build-3" }]

/-- An activity of pull request 7 of `org/repo` with the given build number. -/
def exampleBuild (name build : String) : PipelineActivity :=
  { Name := name,
    Spec := { Pipeline := "org/repo/PR-7", Build := build,
              GitURL := "https://github.com/org/repo" } }

/-- Five activities with the build numbers 3, 1, 4, 1, 5. -/
def exampleBuilds : List PipelineActivity :=
  [exampleBuild "a" "3", exampleBuild "b" "1", exampleBuild "c" "4", exampleBuild "d" "1",
    exampleBuild "e" "5"]

/-- Collaborators of a repository that notifies the channel `dev` and whose
pull request has the activities `items`. -/
def exampleCollaborators (items : List PipelineActivity) : Collaborators :=
  { SlackConfigFor := fun _ _ => some { Channel := "dev" },
    ParseGitURL := fun _ => Except.ok ("org", "repo"),
    FindPullRequest := fun _ _ => (some {}, none),
    getPipelineActivities := fun _ _ _ => Except.ok items }

/-- A composer that answers one attachment, no reviewer and the default
running status. -/
def exampleComposer : PipelineActivity → Bool → Option PullRequest → Outcome ReviewersMessage :=
  fun activity _ _ =>
    Outcome.ok ⟨some [{ CallbackID := "preview:" ++ activity.Name }], [],
      some (StatusPtr.defaultStatuses StatusKind.Running)⟩

/-- An open pull request of `bob`, with the reviewer `alice`. -/
def openPullRequest : PullRequest :=
  { Author := { Login := "bob", Name := "Bob" },
    Reviewers := [{ Login := "alice", Name := "Alice" }],
    Link := "https://github.com/org/repo/pull/7", Title := "Fix it" }

/-- The pull request of `bob` once merged. -/
def mergedPullRequest : PullRequest :=
  { openPullRequest with Merged := true }

/-- The pull request of `bob` carrying the label `wip`. -/
def labelledPullRequest : PullRequest :=
  { openPullRequest with Labels := [{ Name := "bug" }, { Name := "wip" }] }

/-- Collaborators of a repository that notifies the channel `dev` and the
users directly, reviewers included, and ignores the label `wip`; every git
user resolves to a user whose Slack login is `U-<name>`; the clock shows
1700000000. -/
def reviewCollaborators (pullRequest : PullRequest) (items : List PipelineActivity) :
    Collaborators :=
  { SlackConfigFor := fun _ _ =>
      some { Channel := "dev", DirectMessage := true, NotifyReviewers := true,
             IgnorePullLabels := ["wip"] },
    ParseGitURL := fun _ => Except.ok ("org", "repo"),
    FindPullRequest := fun _ _ => (some pullRequest, none),
    getPipelineActivities := fun _ _ _ => Except.ok items,
    SlackUserLogin := fun user =>
      match user with
      | some details => ("U-" ++ details.Name, none)
      | none => ("", none) }

/-- The same collaborators with the status `Merged` overridden in the
configuration. -/
def overrideCollaborators (pullRequest : PullRequest) (items : List PipelineActivity) :
    Collaborators :=
  { reviewCollaborators pullRequest items with
    Statuses := fun entry =>
      if entry = StatusKind.Merged then some { Emoji := ":tada:", Text := "merged" }
      else none }

/-- A release activity on the branch `master`, started at 1699999000. -/
def masterActivity : PipelineActivity :=
  { Name := "org-repo-master-3",
    Spec := { Pipeline := "org/repo/master", Build := "3",
              GitURL := "https://github.com/org/repo",
              StartedTimestamp := some 1699999000 } }

/-- The release activity started two days before 1700000000. -/
def staleActivity : PipelineActivity :=
  { Name := "org-repo-master-2",
    Spec := { Pipeline := "org/repo/master", Build := "2",
              GitURL := "https://github.com/org/repo",
              StartedTimestamp := some 1699827200 } }

/-- An activity of pull request 7 whose build number is not a number. -/
def unnumberedBuild : PipelineActivity :=
  { Name := "org-repo-pr-7-abc",
    Spec := { Pipeline := "org/repo/PR-7", Build := "abc",
              GitURL := "https://github.com/org/repo" } }

/-- The activity of build 10 of pull request 7, started at 1699999000. -/
def recentBuild : PipelineActivity :=
  { Name := "org-repo-pr-7-10",
    Spec := { Pipeline := "org/repo/PR-7", Build := "10",
              GitURL := "https://github.com/org/repo",
              StartedTimestamp := some 1699999000 } }

/-- A transport whose every send fails. -/
def failingSendBot : SlackBotOptions :=
  { OpenConversation := fun user => Except.ok ("D-" ++ user),
    SendMessage := fun _ _ => ("", "", some (GoError.msg "channel_not_found")),
    PatchActivity := fun _ _ _ => none }

/-- The last-updated time of an activity as the specification words it: the
later of its start and completion timestamps, or -1 when it has neither. To
be compared with `getLastUpdatedTime`. -/
def laterTimestamp (activity : PipelineActivity) : Int :=
  match activity.Spec.StartedTimestamp, activity.Spec.CompletedTimestamp with
  | some start, some completed => max start completed
  | some start, none => start
  | none, some completed => completed
  | none, none => -1

/-! ## Lemmas on the string helpers and the annotation lookup -/

/-- Cutting `a ++ sep :: b` when `sep` does not occur in `a` yields `a` and `b`. -/
theorem cut_append (sep : Char) (a b : List Char) (h : sep ∉ a) :
    strings.cut sep (a ++ sep :: b) = some (a, b) := by
  induction a with
  | nil => simp [strings.cut]
  | cons c cs ih =>
    have hc : c ≠ sep := fun e => h (by simp [e])
    have hcs : sep ∉ cs := fun e => h (by simp [e])
    simp [strings.cut, hc, ih hcs]

/-- A list without the separator is not cut. -/
theorem cut_none (sep : Char) (s : List Char) (h : sep ∉ s) :
    strings.cut sep s = none := by
  induction s with
  | nil => simp [strings.cut]
  | cons c cs ih =>
    have hc : c ≠ sep := fun e => h (by simp [e])
    have hcs : sep ∉ cs := fun e => h (by simp [e])
    simp [strings.cut, hc, ih hcs]

/-- A list with the separator splits at its first occurrence. -/
theorem exists_cut (sep : Char) (s : List Char) (h : sep ∈ s) :
    ∃ a b, s = a ++ sep :: b ∧ sep ∉ a := by
  induction s with
  | nil => simp at h
  | cons c cs ih =>
    by_cases hc : c = sep
    · exact ⟨[], cs, by simp [hc], by simp⟩
    · have hcs : sep ∈ cs := by
        rcases List.mem_cons.1 h with e | e
        · exact absurd e.symm hc
        · exact e
      obtain ⟨a, b, hab, ha⟩ := ih hcs
      refine ⟨c :: a, b, by simp [hab], ?_⟩
      intro hm
      rcases List.mem_cons.1 hm with e | e
      · exact hc e.symm
      · exact ha e

/-- The characters of an annotation value. -/
theorem annotationValue_data (cid ts : String) :
    (annotationValue cid ts).data = cid.data ++ '/' :: ts.data := by
  simp [annotationValue, String.data_append]

/-- The Go call `SplitN(v, "/", 2)` on a value that is cut into `a` and `b`. -/
theorem splitN_two_of_cut (v : String) (a b : List Char)
    (h : strings.cut '/' v.data = some (a, b)) :
    strings.SplitN v '/' 2 = [⟨a⟩, ⟨b⟩] := by
  simp [strings.SplitN, strings.splitNChars, h]

/-- The Go call `SplitN(v, "/", 2)` on a value without separator. -/
theorem splitN_two_of_not_mem (v : String) (h : '/' ∉ v.data) :
    strings.SplitN v '/' 2 = [v] := by
  simp [strings.SplitN, strings.splitNChars, cut_none _ _ h]

/-- A string with a character is not the empty string. -/
theorem ne_empty_of_mem (v : String) (c : Char) (h : c ∈ v.data) : v ≠ "" := by
  intro e
  rw [e] at h
  simp at h

/-- The annotation lookup on a value written for a channel ID without `/`. -/
theorem findMessageRef_of_value (activity : PipelineActivity) (channel kind : String)
    (cid ts : String) (hc : '/' ∉ cid.data)
    (hv : activity.annotationAt (annotationKey channel kind) = annotationValue cid ts) :
    findMessageRefViaAnnotations activity channel kind = some ⟨cid, ts⟩ := by
  have hne : annotationValue cid ts ≠ "" :=
    ne_empty_of_mem _ '/' (by simp [annotationValue_data])
  have hcut : strings.cut '/' (annotationValue cid ts).data = some (cid.data, ts.data) := by
    rw [annotationValue_data]; exact cut_append _ _ _ hc
  unfold findMessageRefViaAnnotations
  unfold PipelineActivity.annotationAt at hv
  cases hA : activity.Annotations with
  | none => rw [hA] at hv; exact absurd hv.symm hne
  | some m =>
    rw [hA] at hv
    have hv2 : m.index (annotationKey channel kind) = annotationValue cid ts := hv
    simp only [hv2, hne, ne_eq, not_false_eq_true, if_true, splitN_two_of_cut _ _ _ hcut]

/-- The annotation lookup finds nothing in a value without `/`. -/
theorem findMessageRef_of_no_slash (activity : PipelineActivity) (channel kind : String)
    (hv : '/' ∉ (activity.annotationAt (annotationKey channel kind)).data) :
    findMessageRefViaAnnotations activity channel kind = none := by
  unfold findMessageRefViaAnnotations
  unfold PipelineActivity.annotationAt at hv
  cases hA : activity.Annotations with
  | none => rfl
  | some m =>
    rw [hA] at hv
    have hv2 : '/' ∉ (m.index (annotationKey channel kind)).data := hv
    simp only [splitN_two_of_not_mem _ hv2]
    split <;> rfl

/-! ## Lemmas on the cache, the log and the blocks of `postMessage` -/

/-- The sends of a concatenated log. -/
theorem sends_append (l1 l2 : List Event) : sends (l1 ++ l2) = sends l1 ++ sends l2 := by
  induction l1 with
  | nil => rfl
  | cons e rest ih => cases e <;> simp [sends, ih]

/-- The write-back loop sends no message. -/
theorem sends_annotateAll (o : SlackBotOptions) (key value : String)
    (targets : List PipelineActivity) :
    sends (postMessage_annotateAll o key value targets).1 = [] := by
  induction targets with
  | nil => rfl
  | cons a rest ih =>
    unfold postMessage_annotateAll
    split
    · split <;> simp [sends, ih]
    · exact ih

/-- The write-back sends no message. -/
theorem sends_writeBack (o : SlackBotOptions) (activity : PipelineActivity)
    (all : Option (List PipelineActivity)) (key value : String) :
    sends (postMessage_writeBack o activity all key value).1 = [] := by
  unfold postMessage_writeBack
  cases all with
  | none => simp only []; split <;> rfl
  | some targets => exact sends_annotateAll o key value targets

/-- Allocating the map of a channel changes no cache entry. -/
theorem cached_ensureChannel (o : SlackBotOptions) (channel c n : String) :
    (postMessage_ensureChannel o channel).cached c n = o.cached c n := by
  unfold postMessage_ensureChannel
  cases h : GoMap.find o.Timestamps channel with
  | some m => rfl
  | none =>
    simp only [SlackBotOptions.cached, GoMap.insert, GoMap.find]
    by_cases hc : channel = c
    · subst hc; simp [h, GoMap.find]
    · simp [hc]

/-- The entry just recorded is the one read back. -/
theorem cached_record_same (o : SlackBotOptions) (channel name : String)
    (ref : MessageReference) :
    (postMessage_record o channel name ref).cached channel name = some ref := by
  simp [postMessage_record, SlackBotOptions.cached, GoMap.insert, GoMap.find]

/-- Recording an entry leaves every other entry as it was. -/
theorem cached_record_other (o : SlackBotOptions) (channel name c n : String)
    (ref : MessageReference) (h : c ≠ channel ∨ n ≠ name) :
    (postMessage_record o channel name ref).cached c n = o.cached c n := by
  simp only [postMessage_record, SlackBotOptions.cached, GoMap.insert, GoMap.find]
  by_cases hc : channel = c
  · subst hc
    have hn : ¬ name = n := fun e => by
      rcases h with h | h
      · exact h rfl
      · exact h e.symm
    simp only [if_true, hn, if_false]
    cases GoMap.find o.Timestamps channel <;> simp [GoMap.find, hn]
  · simp [hc]

/-- The send block when the transport answers without error. -/
theorem postMessage_send_ok (o o1 : SlackBotOptions) (channel kind : String)
    (activity : PipelineActivity) (all : Option (List PipelineActivity))
    (target : String) (opts : List MsgOption) (log : List Event) (cid ts : String)
    (h : o.SendMessage target opts = (cid, ts, none)) :
    postMessage_send o o1 channel kind activity all target opts log =
      ⟨postMessage_record o1 channel activity.Name ⟨cid, ts⟩,
        log ++ [Event.sendMessage target opts] ++
          (postMessage_writeBack o activity all (annotationKey channel kind)
            (annotationValue cid ts)).1,
        (postMessage_writeBack o activity all (annotationKey channel kind)
            (annotationValue cid ts)).2⟩ := by
  simp [postMessage_send, h]

/-- The send block when the transport fails. -/
theorem postMessage_send_error (o o1 : SlackBotOptions) (channel kind : String)
    (activity : PipelineActivity) (all : Option (List PipelineActivity))
    (target : String) (opts : List MsgOption) (log : List Event) (cid ts : String)
    (e : GoError) (h : o.SendMessage target opts = (cid, ts, some e)) :
    postMessage_send o o1 channel kind activity all target opts log =
      ⟨o1, log ++ [Event.sendMessage target opts],
        some (GoError.wrap ("(post channelId: " ++ cid ++ ", timestamp: " ++ ts ++ ")") e)⟩ := by
  simp [postMessage_send, h]

/-- The equation of `postMessage` for a channel post. -/
theorem postMessage_channel (o : SlackBotOptions) (channel kind : String)
    (activity : PipelineActivity) (all : Option (List PipelineActivity))
    (options : List MsgOption) (cim : Bool) :
    postMessage o channel false kind activity all options cim =
      if postMessage_timestamp (postMessage_messageRef o channel kind activity) ≠ "" then
        postMessage_send o (postMessage_ensureChannel o channel) channel kind activity all
          (postMessage_channelId (postMessage_messageRef o channel kind activity) channel)
          (options ++ [MsgOption.update
            (postMessage_timestamp (postMessage_messageRef o channel kind activity))]) []
      else if cim then
        postMessage_send o (postMessage_ensureChannel o channel) channel kind activity all
          (postMessage_channelId (postMessage_messageRef o channel kind activity) channel)
          options []
      else ⟨postMessage_ensureChannel o channel, [], none⟩ := by
  unfold postMessage
  by_cases h : postMessage_timestamp (postMessage_messageRef o channel kind activity) = ""
  · cases cim <;> simp [h]
  · simp [h]

/-- The equation of `postMessage` for a direct message whose conversation opens. -/
theorem postMessage_direct (o : SlackBotOptions) (channel kind : String)
    (activity : PipelineActivity) (all : Option (List PipelineActivity))
    (options : List MsgOption) (cim : Bool) (id : String)
    (hopen : o.OpenConversation channel = Except.ok id) :
    postMessage o channel true kind activity all options cim =
      if postMessage_timestamp (postMessage_messageRef o channel kind activity) ≠ "" then
        postMessage_send o (postMessage_ensureChannel o channel) channel kind activity all id
          (options ++ [MsgOption.update
            (postMessage_timestamp (postMessage_messageRef o channel kind activity))])
          [Event.openConversation channel]
      else if cim then
        postMessage_send o (postMessage_ensureChannel o channel) channel kind activity all id
          options [Event.openConversation channel]
      else ⟨postMessage_ensureChannel o channel, [Event.openConversation channel], none⟩ := by
  unfold postMessage
  by_cases h : postMessage_timestamp (postMessage_messageRef o channel kind activity) = ""
  · cases cim <;> simp [h, hopen]
  · simp [h, hopen]

/-- The equation of `postMessage` for a direct message whose conversation fails to
open. -/
theorem postMessage_direct_error (o : SlackBotOptions) (channel kind : String)
    (activity : PipelineActivity) (all : Option (List PipelineActivity))
    (options : List MsgOption) (cim : Bool) (e : GoError)
    (hopen : o.OpenConversation channel = Except.error e) :
    postMessage o channel true kind activity all options cim =
      ⟨postMessage_ensureChannel o channel, [Event.openConversation channel],
        some (GoError.wrap ("(open converation channelId: " ++
          postMessage_channelId (postMessage_messageRef o channel kind activity) channel
          ++ ")") e)⟩ := by
  unfold postMessage
  simp [hopen]

/-- Every result of the send block has one of the shapes of `PostShape`. -/
theorem postShape_of_send (o : SlackBotOptions) (channel : String) (dm : Bool)
    (kind : String) (activity : PipelineActivity) (all : Option (List PipelineActivity))
    (target : String) (opts : List MsgOption) :
    PostShape o channel dm kind activity all
      (postMessage_send o (postMessage_ensureChannel o channel) channel kind activity all
        target opts (if dm then [Event.openConversation channel] else [])) := by
  have hpre : sends (if dm then [Event.openConversation channel] else []) = [] := by
    cases dm <;> rfl
  rcases hres : o.SendMessage target opts with ⟨cid, ts, _ | e⟩
  · right; right
    exact ⟨target, opts, cid, ts, hres, postMessage_send_ok _ _ _ _ _ _ _ _ _ _ _ hres⟩
  · right; left
    refine ⟨target, opts, cid, ts, e, ?_, hres, ?_⟩
    · rw [postMessage_send_error _ _ _ _ _ _ _ _ _ _ _ _ hres]
      simp [sends_append, hpre, sends]
    · rw [postMessage_send_error _ _ _ _ _ _ _ _ _ _ _ _ hres]

/-- Every result of `postMessage` has one of the shapes of `PostShape`. -/
theorem postMessage_shape (o : SlackBotOptions) (channel : String) (dm : Bool)
    (kind : String) (activity : PipelineActivity) (all : Option (List PipelineActivity))
    (options : List MsgOption) (cim : Bool) :
    PostShape o channel dm kind activity all
      (postMessage o channel dm kind activity all options cim) := by
  cases dm with
  | false =>
    rw [postMessage_channel]
    split
    · exact postShape_of_send o channel false kind activity all _ _
    · split
      · exact postShape_of_send o channel false kind activity all _ _
      · left; exact ⟨rfl, rfl⟩
  | true =>
    cases hopen : o.OpenConversation channel with
    | error e =>
      left
      rw [postMessage_direct_error _ _ _ _ _ _ _ _ hopen]
      exact ⟨rfl, rfl⟩
    | ok id =>
      rw [postMessage_direct _ _ _ _ _ _ _ _ hopen]
      split
      · exact postShape_of_send o channel true kind activity all _ _
      · split
        · exact postShape_of_send o channel true kind activity all _ _
        · left; exact ⟨rfl, rfl⟩

/-! ## Further lemmas on `postMessage` -/

/-- The send block makes exactly one send, to the target given. -/
theorem sends_sent (o o1 : SlackBotOptions) (channel kind : String)
    (activity : PipelineActivity) (all : Option (List PipelineActivity))
    (target : String) (opts : List MsgOption) (pre : List Event) (hpre : sends pre = []) :
    sends (postMessage_send o o1 channel kind activity all target opts pre).log
      = [(target, opts)] := by
  rcases hres : o.SendMessage target opts with ⟨cid, ts, _ | e⟩
  · rw [postMessage_send_ok _ _ _ _ _ _ _ _ _ _ _ hres]
    simp [sends_append, hpre, sends_writeBack, sends]
  · rw [postMessage_send_error _ _ _ _ _ _ _ _ _ _ _ _ hres]
    simp [sends_append, hpre, sends]

/-- Without a `/` in the annotation the lookup of `postMessage` is the cache
entry. -/
theorem messageRef_of_cached (o : SlackBotOptions) (channel kind : String)
    (activity : PipelineActivity)
    (hv : '/' ∉ (activity.annotationAt (annotationKey channel kind)).data) :
    postMessage_messageRef o channel kind activity = o.cached channel activity.Name := by
  simp [postMessage_messageRef, findMessageRef_of_no_slash _ _ _ hv]

/-- Allocating the map of a channel keeps the transport. -/
theorem ensureChannel_open (o : SlackBotOptions) (channel : String) :
    (postMessage_ensureChannel o channel).OpenConversation = o.OpenConversation := by
  unfold postMessage_ensureChannel
  split <;> rfl

/-- The equation of `postMessage` once the channel ID it sends to is known:
the channel ID of the lookup for a channel post, the opened conversation for
a direct message. -/
theorem postMessage_eq (o : SlackBotOptions) (channel : String)
    (directMessage : Bool) (messageType : String) (activity : PipelineActivity)
    (all : Option (List PipelineActivity)) (options : List MsgOption)
    (createIfMissing : Bool) (target : String)
    (htarget : if directMessage then o.OpenConversation channel = Except.ok target
      else target = postMessage_channelId
        (postMessage_messageRef o channel messageType activity) channel) :
    postMessage o channel directMessage messageType activity all options createIfMissing =
      if postMessage_timestamp (postMessage_messageRef o channel messageType activity) ≠ "" then
        postMessage_send o (postMessage_ensureChannel o channel) channel messageType activity
          all target
          (options ++ [MsgOption.update
            (postMessage_timestamp (postMessage_messageRef o channel messageType activity))])
          (if directMessage then [Event.openConversation channel] else [])
      else if createIfMissing then
        postMessage_send o (postMessage_ensureChannel o channel) channel messageType activity
          all target options (if directMessage then [Event.openConversation channel] else [])
      else ⟨postMessage_ensureChannel o channel,
        if directMessage then [Event.openConversation channel] else [], none⟩ := by
  cases directMessage with
  | false =>
    simp only [Bool.false_eq_true, if_false] at htarget
    rw [postMessage_channel, htarget]
    rfl
  | true =>
    simp only [if_true] at htarget
    rw [postMessage_direct _ _ _ _ _ _ _ _ htarget]
    rfl

/-- The patched activities of a concatenated log. -/
theorem annotated_append (l1 l2 : List Event) :
    annotated (l1 ++ l2) = annotated l1 ++ annotated l2 := by
  induction l1 with
  | nil => rfl
  | cons e rest ih => cases e <;> simp [annotated, ih]

/-- The write-back loop on a list whose first failing patch is at `failed`:
the activities before it that need the annotation are patched, then `failed`
is tried, and the loop ends with its error. -/
theorem annotateAll_stops (o : SlackBotOptions) (key value : String)
    (before after : List PipelineActivity) (failed : PipelineActivity) (e : GoError)
    (hbefore : ∀ a ∈ before, a.annotationAt key ≠ value → o.PatchActivity a key value = none)
    (hneeds : failed.annotationAt key ≠ value)
    (hfail : o.PatchActivity failed key value = some e) :
    annotated (postMessage_annotateAll o key value (before ++ failed :: after)).1 =
      ((before.filter (fun a => decide (a.annotationAt key ≠ value))).map
        (fun a => a.Name)) ++ [failed.Name] ∧
    (postMessage_annotateAll o key value (before ++ failed :: after)).2 = some e := by
  induction before with
  | nil =>
    simp [postMessage_annotateAll, hneeds, hfail, annotated]
  | cons b rest ih =>
    have ih2 := ih (fun a ha => hbefore a (List.mem_cons_of_mem _ ha))
    by_cases hb : b.annotationAt key = value
    · simp only [List.cons_append, postMessage_annotateAll, hb, ne_eq, not_true_eq_false,
        if_false, decide_False, List.filter_cons_of_neg, Bool.false_eq_true, not_false_eq_true]
      exact ih2
    · have hp := hbefore b (List.mem_cons_self _ _) hb
      simp only [List.cons_append, postMessage_annotateAll, hb, ne_eq, not_false_eq_true,
        if_true, hp, annotated, decide_True, List.filter_cons_of_pos, List.map_cons,
        List.cons.injEq, true_and]
      exact ih2

/-! ## Lemmas on the ordering of the activities -/

/-- A list arranged by a reflexive relation has its head before and its last
element after every element. -/
theorem pairwise_head_getLast {α : Type} (r : α → α → Prop) (hrefl : ∀ a, r a a)
    (l : List α) (hs : l.Pairwise r) (x y : α)
    (hx : l.head? = some x) (hy : l.getLast? = some y) :
    ∀ a ∈ l, r x a ∧ r a y := by
  intro a ha
  constructor
  · cases l with
    | nil => simp at hx
    | cons b t =>
      simp only [List.head?_cons, Option.some.injEq] at hx
      subst hx
      rcases List.mem_cons.1 ha with e | e
      · rw [e]; exact hrefl _
      · exact List.rel_of_pairwise_cons hs e
  · have hne : l ≠ [] := by
      intro e; rw [e] at ha; simp at ha
    have hy2 : l.getLast hne = y := by
      rw [List.getLast?_eq_getLast _ hne] at hy
      exact Option.some.inj hy
    have hl : l = l.dropLast ++ [y] := by
      rw [← hy2]; exact (List.dropLast_append_getLast hne).symm
    rw [hl] at ha hs
    rcases List.mem_append.1 ha with e | e
    · exact (List.pairwise_append.1 hs).2.2 a e y (by simp)
    · simp only [List.mem_singleton] at e
      rw [e]; exact hrefl _

/-- When every build number parses, the sort returns an arrangement of the
items in ascending order of the build numbers. -/
theorem sortByBuildNumber_ok (items : List PipelineActivity)
    (hparse : ∀ a ∈ items, (strconv.Atoi a.Spec.Build).2 = none) :
    ∃ sorted, sortByBuildNumber items = Outcome.ok sorted ∧ sorted.Perm items ∧
      sorted.Pairwise (fun a b => byBuildNumber_key a ≤ byBuildNumber_key b) := by
  refine ⟨items.insertionSort (fun a b => byBuildNumber_Less b a = false), ?_, ?_, ?_⟩
  · unfold sortByBuildNumber
    have hall : items.all (fun a => decide ((strconv.Atoi a.Spec.Build).2 = none)) = true := by
      rw [List.all_eq_true]
      intro a ha
      simpa using hparse a ha
    rw [if_pos (Or.inr hall)]
  · exact List.perm_insertionSort _ _
  · haveI : IsTotal PipelineActivity (fun a b => byBuildNumber_Less b a = false) :=
      ⟨fun a b => by
        simp only [byBuildNumber_Less, decide_eq_false_iff_not, not_lt]
        exact le_total _ _⟩
    haveI : IsTrans PipelineActivity (fun a b => byBuildNumber_Less b a = false) :=
      ⟨fun a b c hab hbc => by
        simp only [byBuildNumber_Less, decide_eq_false_iff_not, not_lt] at hab hbc ⊢
        exact le_trans hab hbc⟩
    have hs := List.sorted_insertionSort (fun a b => byBuildNumber_Less b a = false) items
    refine List.Pairwise.imp ?_ hs
    intro a b hab
    simpa [byBuildNumber_Less] using hab

/-! ## The claims -/

/-- Claim C1, counterexample. The activity `build-1` has no identity annotation
and no cache entry, `createIfMissing` is true and both sends succeed, yet the
two consecutive calls of `postMessage` send two messages without an update
option: the transport answered the first send with an empty timestamp, and an
empty timestamp is read as "no message yet". -/
theorem postMessage_twice_creates_twice_on_empty_timestamp :
    exampleActivity.annotationAt (annotationKey "#dev" pipelineMessageType) = "" ∧
    emptyTimestampBot.cached "#dev" exampleActivity.Name = none ∧
    (postMessage emptyTimestampBot "#dev" false pipelineMessageType exampleActivity none []
      true).err = none ∧
    (postMessage (postMessage emptyTimestampBot "#dev" false pipelineMessageType
      exampleActivity none [] true).o "#dev" false pipelineMessageType exampleActivity none []
      true).err = none ∧
    sends ((postMessage emptyTimestampBot "#dev" false pipelineMessageType exampleActivity none
        [] true).log ++
      (postMessage (postMessage emptyTimestampBot "#dev" false pipelineMessageType
        exampleActivity none [] true).o "#dev" false pipelineMessageType exampleActivity none
        [] true).log) = [("#dev", []), ("#dev", [])] := by
  decide

/-- Claim C1, amended: idempotent posting. Let an activity have no identity
annotation for (channel, kind) and no cache entry, let `createIfMissing` be
true, and let the first send (to `target`: the channel, or the conversation
opened for a direct message) succeed with a non-empty timestamp. Then two
consecutive calls of `postMessage` for the same channel, kind and activity
make exactly two sends: first a create, with the options as given, then an
update carrying the timestamp returned by the first send. -/
theorem postMessage_twice_create_then_update (o : SlackBotOptions) (channel : String)
    (directMessage : Bool) (messageType : String) (activity : PipelineActivity)
    (all : Option (List PipelineActivity)) (options : List MsgOption)
    (target sentChannelId sentTimestamp : String)
    (hannot : activity.annotationAt (annotationKey channel messageType) = "")
    (hcache : o.cached channel activity.Name = none)
    (hdirect : directMessage = true → o.OpenConversation channel = Except.ok target)
    (hchannel : directMessage = false → target = channel)
    (hsend : o.SendMessage target options = (sentChannelId, sentTimestamp, none))
    (htimestamp : sentTimestamp ≠ "") :
    sends ((postMessage o channel directMessage messageType activity all options true).log ++
      (postMessage (postMessage o channel directMessage messageType activity all options true).o
        channel directMessage messageType activity all options true).log) =
      [(target, options),
        (if directMessage then target else sentChannelId,
          options ++ [MsgOption.update sentTimestamp])] := by
  have hnoslash : '/' ∉ (activity.annotationAt (annotationKey channel messageType)).data := by
    rw [hannot]; simp
  have href1 : postMessage_messageRef o channel messageType activity = none := by
    rw [messageRef_of_cached _ _ _ _ hnoslash, hcache]
  have hpre : sends (if directMessage then [Event.openConversation channel] else []) = [] := by
    cases directMessage <;> rfl
  -- the first call creates
  have h1 : postMessage o channel directMessage messageType activity all options true =
      postMessage_send o (postMessage_ensureChannel o channel) channel messageType activity
        all target options (if directMessage then [Event.openConversation channel] else []) := by
    rw [postMessage_eq o channel directMessage messageType activity all options true target
      (by
        cases directMessage with
        | true => simpa using hdirect rfl
        | false => simpa [href1, postMessage_channelId] using hchannel rfl)]
    simp [href1, postMessage_timestamp]
  rw [h1, postMessage_send_ok _ _ _ _ _ _ _ _ _ _ _ hsend]
  simp only []
  -- the second call finds the reference recorded by the first
  have href2 : postMessage_messageRef
      (postMessage_record (postMessage_ensureChannel o channel) channel activity.Name
        ⟨sentChannelId, sentTimestamp⟩) channel messageType activity
      = some ⟨sentChannelId, sentTimestamp⟩ := by
    rw [messageRef_of_cached _ _ _ _ hnoslash, cached_record_same]
  have h2 := postMessage_eq
    (postMessage_record (postMessage_ensureChannel o channel) channel activity.Name
      ⟨sentChannelId, sentTimestamp⟩) channel directMessage messageType activity all options
    true (if directMessage then target else sentChannelId)
    (by
      cases directMessage with
      | false => simp [href2, postMessage_channelId]
      | true =>
        simp only [if_true]
        show (postMessage_ensureChannel o channel).OpenConversation channel = _
        rw [ensureChannel_open]; exact hdirect rfl)
  rw [h2]
  simp only [href2, postMessage_timestamp, ne_eq, htimestamp, not_false_eq_true, if_true]
  rw [sends_append, sends_sent _ _ _ _ _ _ _ _ _ hpre]
  simp [sends_append, hpre, sends_writeBack, sends]

/-- Claim C1, witness of the amended statement: a channel post to `#dev` and a
direct message to `U1`, each made twice. -/
theorem postMessage_twice_create_then_update_witness :
    sends ((postMessage exampleBot "#dev" false pipelineMessageType exampleActivity none []
        true).log ++
      (postMessage (postMessage exampleBot "#dev" false pipelineMessageType exampleActivity
        none [] true).o "#dev" false pipelineMessageType exampleActivity none [] true).log) =
      [("#dev", []), ("#dev", [MsgOption.update "1700000000.000100"])] ∧
    sends ((postMessage exampleBot "U1" true pipelineMessageType exampleActivity none []
        true).log ++
      (postMessage (postMessage exampleBot "U1" true pipelineMessageType exampleActivity
        none [] true).o "U1" true pipelineMessageType exampleActivity none [] true).log) =
      [("D-U1", []), ("D-U1", [MsgOption.update "1700000000.000100"])] :=
  ⟨postMessage_twice_create_then_update exampleBot "#dev" false pipelineMessageType
      exampleActivity none [] "#dev" "#dev" "1700000000.000100" (by decide) (by decide)
      (by simp) (fun _ => rfl) (by rfl) (by decide),
    postMessage_twice_create_then_update exampleBot "U1" true pipelineMessageType
      exampleActivity none [] "D-U1" "D-U1" "1700000000.000100" (by decide) (by decide)
      (fun _ => rfl) (by simp) (by rfl) (by decide)⟩

/-- Claim C2: identity lookup order of `postMessage`. (1) When the annotation
for (channel, kind) is `<channelID>/<timestamp>`, cut at its first `/`, the
lookup answers that reference whatever the cache holds. (2) When the
annotation has no `/` (absent, empty or malformed), the lookup answers the
cache entry for (channel, activity name): that entry when present, and no
message when absent. (3) Every annotation value falls under (1) or (2). -/
theorem postMessage_lookup_order (o : SlackBotOptions) (channel messageType : String)
    (activity : PipelineActivity) :
    (∀ channelID timestamp : String, '/' ∉ channelID.data →
      activity.annotationAt (annotationKey channel messageType)
        = channelID ++ "/" ++ timestamp →
      postMessage_messageRef o channel messageType activity = some ⟨channelID, timestamp⟩) ∧
    ('/' ∉ (activity.annotationAt (annotationKey channel messageType)).data →
      postMessage_messageRef o channel messageType activity
        = o.cached channel activity.Name) ∧
    ('/' ∈ (activity.annotationAt (annotationKey channel messageType)).data →
      ∃ channelID timestamp : String, '/' ∉ channelID.data ∧
        activity.annotationAt (annotationKey channel messageType)
          = channelID ++ "/" ++ timestamp) := by
  refine ⟨?_, ?_, ?_⟩
  · intro channelID timestamp hc hv
    have h := findMessageRef_of_value activity channel messageType channelID timestamp hc hv
    simp [postMessage_messageRef, h]
  · exact messageRef_of_cached o channel messageType activity
  · intro hmem
    obtain ⟨a, b, hab, ha⟩ := exists_cut '/' _ hmem
    refine ⟨⟨a⟩, ⟨b⟩, ha, ?_⟩
    apply String.ext
    rw [hab]
    simp [String.data_append]

/-- Claim C2, witness: the annotation wins over a cache that holds another
reference; a malformed annotation falls back to the cache; with neither,
no message is found. -/
theorem postMessage_lookup_order_witness :
    cachedBot.cached "#dev" "build-1" = some ⟨"C0CACHED", "1600000000.000200"⟩ ∧
    postMessage_messageRef cachedBot "#dev" pullRequestReviewMessageType
      reviewAnnotatedActivity = some ⟨"C024BE91L", "1700000000.000100"⟩ ∧
    postMessage_messageRef cachedBot "#dev" pullRequestReviewMessageType
      malformedAnnotatedActivity = some ⟨"C0CACHED", "1600000000.000200"⟩ ∧
    postMessage_messageRef exampleBot "#dev" pullRequestReviewMessageType
      exampleActivity = none :=
  ⟨by decide,
    (postMessage_lookup_order cachedBot "#dev" pullRequestReviewMessageType
      reviewAnnotatedActivity).1 "C024BE91L" "1700000000.000100" (by decide) (by decide),
    (postMessage_lookup_order cachedBot "#dev" pullRequestReviewMessageType
      malformedAnnotatedActivity).2.1 (by decide),
    (postMessage_lookup_order exampleBot "#dev" pullRequestReviewMessageType
      exampleActivity).2.1 (by decide)⟩

/-- Claim C3: the staleness gate of `ReviewRequestMessage`. For a call that
reaches the gate (named activity of a pull request, notifications configured
and enabled, activities of the pull request found) with the incoming and the
newest build number both parsing as integers: when the incoming number is at
least the newest one (equal included), the call is the compose-and-post block
`ReviewRequestMessage_post`; when it is smaller, the call makes no collaborator
call, leaves the cache as it was and returns no error. The comparison is the
one of the integers. -/
theorem ReviewRequestMessage_staleness_gate
    (createReviewersMessage :
      PipelineActivity → Bool → Option PullRequest → Outcome ReviewersMessage)
    (c : Collaborators) (o : SlackBotOptions) (activity latestActivity : PipelineActivity)
    (prn : Int) (cfg : SlackNotify) (pullRequest : Option PullRequest)
    (found : FoundActivities) (buildNumber latestBuildNumber : Int)
    (hname : activity.Name ≠ "")
    (hprn : getPullRequestNumber activity = (prn, none)) (hpos : 0 < prn)
    (hcfg : getSlackConfigForPipeline c activity = some cfg)
    (hchannel : cfg.Channel ≠ "") (hdisable : cfg.Disable = false)
    (henabled : isEnabled c activity cfg.IgnorePullLabels = Outcome.ok (true, pullRequest))
    (hfound : findPipelineActivities c activity = Outcome.ok found)
    (hlatest : found.latest = some latestActivity)
    (hbuild : strconv.Atoi (CreatePipelineDetails activity).Build = (buildNumber, none))
    (hlatestBuild : strconv.Atoi (CreatePipelineDetails latestActivity).Build
      = (latestBuildNumber, none)) :
    (latestBuildNumber ≤ buildNumber →
      ReviewRequestMessage createReviewersMessage c o activity =
        ReviewRequestMessage_post createReviewersMessage o cfg activity pullRequest
          (found.oldest.getD activity) found.all) ∧
    (buildNumber < latestBuildNumber →
      ReviewRequestMessage createReviewersMessage c o activity
        = ⟨o, [], Exit.returned none⟩) := by
  have hnp : ¬ prn ≤ 0 := not_le.2 hpos
  constructor
  · intro hge
    unfold ReviewRequestMessage
    simp only [hname, if_false, hprn, hnp, hcfg, hchannel, hdisable, henabled, hfound, hlatest,
      hbuild, hlatestBuild, ge_iff_le, hge, if_true, Bool.false_eq_true, or_self]
    cases found.oldest <;> rfl
  · intro hlt
    have hng : ¬ latestBuildNumber ≤ buildNumber := not_le.2 hlt
    unfold ReviewRequestMessage
    simp only [hname, if_false, hprn, hnp, hcfg, hchannel, hdisable, henabled, hfound, hlatest,
      hbuild, hlatestBuild, ge_iff_le, hng, Bool.false_eq_true, or_self]

/-- Claim C3, witness: a pull request with the builds 9 and 10. The event of
build 10 is composed and posted; the late event of build 9 is dropped, although
the text `9` comes after the text `10` in the order of strings. -/
theorem ReviewRequestMessage_staleness_gate_witness :
    ReviewRequestMessage exampleComposer
        (exampleCollaborators [exampleBuild "j" "10", exampleBuild "i" "9"]) exampleBot
        (exampleBuild "j" "10") =
      ReviewRequestMessage_post exampleComposer exampleBot { Channel := "dev" }
        (exampleBuild "j" "10") (some {}) (exampleBuild "i" "9")
        (some [exampleBuild "i" "9", exampleBuild "j" "10"]) ∧
    sends (ReviewRequestMessage exampleComposer
        (exampleCollaborators [exampleBuild "j" "10", exampleBuild "i" "9"]) exampleBot
        (exampleBuild "j" "10")).log =
      [("#dev", [MsgOption.attachments [{ CallbackID := "preview:j" }]])] ∧
    ReviewRequestMessage exampleComposer
        (exampleCollaborators [exampleBuild "j" "10", exampleBuild "i" "9"]) exampleBot
        (exampleBuild "i" "9") = ⟨exampleBot, [], Exit.returned none⟩ :=
  ⟨(ReviewRequestMessage_staleness_gate exampleComposer
      (exampleCollaborators [exampleBuild "j" "10", exampleBuild "i" "9"]) exampleBot
      (exampleBuild "j" "10") (exampleBuild "j" "10") 7 { Channel := "dev" } (some {})
      ⟨some (exampleBuild "i" "9"), some (exampleBuild "j" "10"),
        some [exampleBuild "i" "9", exampleBuild "j" "10"]⟩ 10 10
      (by decide) (by decide) (by decide) (by rfl) (by decide) (by rfl) (by decide) (by decide)
      (by rfl) (by decide) (by decide)).1 (by decide),
    by decide,
    (ReviewRequestMessage_staleness_gate exampleComposer
      (exampleCollaborators [exampleBuild "j" "10", exampleBuild "i" "9"]) exampleBot
      (exampleBuild "i" "9") (exampleBuild "j" "10") 7 { Channel := "dev" } (some {})
      ⟨some (exampleBuild "i" "9"), some (exampleBuild "j" "10"),
        some [exampleBuild "i" "9", exampleBuild "j" "10"]⟩ 9 10
      (by decide) (by decide) (by decide) (by rfl) (by decide) (by rfl) (by decide) (by decide)
      (by rfl) (by decide) (by decide)).2 (by decide)⟩

/-- Claim C4: canonicalization by `findPipelineActivities`. For a non-empty
collection of fetched activities whose build numbers all parse as integers,
the call returns as `all` a permutation of the fetched activities in
ascending numeric order of the build numbers, as `oldest` its first element
and as `latest` its last element; `oldest` has the minimum and `latest` the
maximum build number of the collection. -/
theorem findPipelineActivities_canonical (c : Collaborators) (activity : PipelineActivity)
    (prn : Int) (items : List PipelineActivity)
    (hprn : getPullRequestNumber activity = (prn, none))
    (hfetch : c.getPipelineActivities (CreatePipelineDetails activity).GitOwner
      (CreatePipelineDetails activity).GitRepository prn = Except.ok items)
    (hne : items ≠ [])
    (hparse : ∀ a ∈ items, (strconv.Atoi a.Spec.Build).2 = none) :
    ∃ (oldest latest : PipelineActivity) (all : List PipelineActivity),
      findPipelineActivities c activity = Outcome.ok ⟨some oldest, some latest, some all⟩ ∧
      all.Perm items ∧
      all.Pairwise (fun a b => byBuildNumber_key a ≤ byBuildNumber_key b) ∧
      all.head? = some oldest ∧ all.getLast? = some latest ∧
      oldest ∈ items ∧ latest ∈ items ∧
      ∀ a ∈ items, byBuildNumber_key oldest ≤ byBuildNumber_key a ∧
        byBuildNumber_key a ≤ byBuildNumber_key latest := by
  obtain ⟨sorted, hsort, hperm, hpair⟩ := sortByBuildNumber_ok items hparse
  have hsne : sorted ≠ [] := by
    intro e; rw [e] at hperm; exact hne (List.Perm.nil_eq hperm).symm
  have hlen : items.length > 0 := List.length_pos.2 hne
  obtain ⟨oldest, hold⟩ : ∃ x, sorted.head? = some x := by
    cases sorted with
    | nil => exact absurd rfl hsne
    | cons x t => exact ⟨x, rfl⟩
  have hlast : sorted.getLast? = some (sorted.getLast hsne) := List.getLast?_eq_getLast _ hsne
  refine ⟨oldest, sorted.getLast hsne, sorted, ?_, hperm, hpair, hold, hlast, ?_, ?_, ?_⟩
  · unfold findPipelineActivities
    simp only [hprn, hfetch, hlen, if_true, hsort, hold, hlast]
  · exact hperm.mem_iff.1 (List.mem_of_mem_head? hold)
  · exact hperm.mem_iff.1 (List.getLast_mem hsne)
  · intro a ha
    exact pairwise_head_getLast (fun a b => byBuildNumber_key a ≤ byBuildNumber_key b)
      (fun x => le_refl (byBuildNumber_key x)) sorted hpair oldest _ hold hlast a
      (hperm.mem_iff.2 ha)

/-- Claim C4, witness: the builds 3, 1, 4, 1, 5 come back in the order
1, 1, 3, 4, 5, the oldest with build 1 and the latest with build 5. -/
theorem findPipelineActivities_canonical_witness :
    findPipelineActivities (exampleCollaborators exampleBuilds) (exampleBuild "e" "5") =
      Outcome.ok ⟨some (exampleBuild "b" "1"), some (exampleBuild "e" "5"),
        some [exampleBuild "b" "1", exampleBuild "d" "1", exampleBuild "a" "3",
          exampleBuild "c" "4", exampleBuild "e" "5"]⟩ ∧
    ∃ (oldest latest : PipelineActivity) (all : List PipelineActivity),
      findPipelineActivities (exampleCollaborators exampleBuilds) (exampleBuild "e" "5")
        = Outcome.ok ⟨some oldest, some latest, some all⟩ ∧
      all.Perm exampleBuilds ∧
      all.Pairwise (fun a b => byBuildNumber_key a ≤ byBuildNumber_key b) ∧
      all.head? = some oldest ∧ all.getLast? = some latest ∧
      oldest ∈ exampleBuilds ∧ latest ∈ exampleBuilds ∧
      ∀ a ∈ exampleBuilds, byBuildNumber_key oldest ≤ byBuildNumber_key a ∧
        byBuildNumber_key a ≤ byBuildNumber_key latest :=
  ⟨by decide,
    findPipelineActivities_canonical (exampleCollaborators exampleBuilds)
      (exampleBuild "e" "5") 7 exampleBuilds (by decide) (by rfl) (by decide) (by decide)⟩

/-- Claim C5, counterexample. First: the lookup finds the reference
`C024BE91L` with an empty timestamp, and with `createIfMissing` false nothing
is sent, so the found reference is not updated in place. Second: for a direct
message the lookup finds a reference with channel ID `C024BE91L`, and the
update is sent to the opened conversation `D-U1`, not to that channel ID. -/
theorem postMessage_found_reference_not_updated_in_place :
    (postMessage_messageRef exampleBot "#dev" pipelineMessageType halfAnnotatedActivity
        = some ⟨"C024BE91L", ""⟩ ∧
      sends (postMessage exampleBot "#dev" false pipelineMessageType halfAnnotatedActivity
        none [] false).log = []) ∧
    (postMessage_messageRef exampleBot "U1" pipelineMessageType directAnnotatedActivity
        = some ⟨"C024BE91L", "1700000000.000100"⟩ ∧
      sends (postMessage exampleBot "U1" true pipelineMessageType directAnnotatedActivity
        none [] false).log = [("D-U1", [MsgOption.update "1700000000.000100"])]) := by
  decide

/-- Claim C5, amended: the posting decision of `postMessage`. Let `target` be
the channel ID the call sends to: for a channel post the channel ID of the
reference found, or the channel when none was found; for a direct message the
ID of the conversation it opens. When a reference with a non-empty timestamp
was found, exactly one message is sent, to `target`, with the update option
carrying that timestamp. When no reference was found, or the one found has an
empty timestamp, one message without update option is sent to `target` if
`createIfMissing` is true, and nothing is sent if it is false. -/
theorem postMessage_decision (o : SlackBotOptions) (channel : String)
    (directMessage : Bool) (messageType : String) (activity : PipelineActivity)
    (all : Option (List PipelineActivity)) (options : List MsgOption)
    (createIfMissing : Bool) (target : String)
    (hdirect : directMessage = true → o.OpenConversation channel = Except.ok target)
    (hchannel : directMessage = false →
      target = (match postMessage_messageRef o channel messageType activity with
        | some ref => ref.ChannelID
        | none => channel)) :
    sends (postMessage o channel directMessage messageType activity all options
        createIfMissing).log =
      match postMessage_messageRef o channel messageType activity with
      | some ref =>
        if ref.Timestamp ≠ "" then [(target, options ++ [MsgOption.update ref.Timestamp])]
        else if createIfMissing then [(target, options)]
        else []
      | none => if createIfMissing then [(target, options)] else [] := by
  have hpre : sends (if directMessage then [Event.openConversation channel] else []) = [] := by
    cases directMessage <;> rfl
  have heq := postMessage_eq o channel directMessage messageType activity all options
    createIfMissing target
    (by
      cases directMessage with
      | true => simpa using hdirect rfl
      | false =>
        simp only [Bool.false_eq_true, if_false]
        rw [hchannel rfl]
        cases postMessage_messageRef o channel messageType activity <;> rfl)
  rw [heq]
  cases href : postMessage_messageRef o channel messageType activity with
  | none =>
    simp only [postMessage_timestamp, ne_eq, not_true_eq_false, if_false]
    cases createIfMissing with
    | false => simpa using hpre
    | true =>
      simp only [if_true]
      exact sends_sent _ _ _ _ _ _ _ _ _ hpre
  | some ref =>
    simp only [postMessage_timestamp]
    by_cases hts : ref.Timestamp = ""
    · simp only [hts, ne_eq, not_true_eq_false, if_false]
      cases createIfMissing with
      | false => simpa using hpre
      | true =>
        simp only [if_true]
        exact sends_sent _ _ _ _ _ _ _ _ _ hpre
    · simp only [ne_eq, hts, not_false_eq_true, if_true]
      exact sends_sent _ _ _ _ _ _ _ _ _ hpre

/-- Claim C5, witness: an annotated activity is updated in place in its
channel; an activity without reference is created when asked and left alone
otherwise. -/
theorem postMessage_decision_witness :
    sends (postMessage exampleBot "#dev" false pullRequestReviewMessageType
      reviewAnnotatedActivity none [] false).log
      = [("C024BE91L", [MsgOption.update "1700000000.000100"])] ∧
    sends (postMessage exampleBot "#dev" false pullRequestReviewMessageType
      exampleActivity none [] true).log = [("#dev", [])] ∧
    sends (postMessage exampleBot "#dev" false pullRequestReviewMessageType
      exampleActivity none [] false).log = [] :=
  ⟨postMessage_decision exampleBot "#dev" false pullRequestReviewMessageType
      reviewAnnotatedActivity none [] false "C024BE91L" (by simp) (fun _ => by decide),
    postMessage_decision exampleBot "#dev" false pullRequestReviewMessageType
      exampleActivity none [] true "#dev" (by simp) (fun _ => by decide),
    postMessage_decision exampleBot "#dev" false pullRequestReviewMessageType
      exampleActivity none [] false "#dev" (by simp) (fun _ => by decide)⟩

/-- Claim C6, the failing input evaluated. The pipeline message of `build-1`
is posted to `#dev`. A later lookup for the review kind `pr`, on the same
channel and the same activity, finds the reference stored for the pipeline
kind in the cache, and the review message is sent as an update of the
pipeline message. This also holds for the activity read back from the store
with the pipeline annotation: the annotation tier keeps the kinds apart (no
reference for `pr`), the cache tier does not. -/
theorem postMessage_kinds_collide_in_cache :
    sends (postMessage exampleBot "#dev" false pipelineMessageType exampleActivity none []
      true).log = [("#dev", [])] ∧
    postMessage_messageRef
      (postMessage exampleBot "#dev" false pipelineMessageType exampleActivity none []
        true).o "#dev" pullRequestReviewMessageType exampleActivity
      = some ⟨"#dev", "1700000000.000100"⟩ ∧
    sends (postMessage
      (postMessage exampleBot "#dev" false pipelineMessageType exampleActivity none []
        true).o "#dev" false pullRequestReviewMessageType exampleActivity none [] true).log
      = [("#dev", [MsgOption.update "1700000000.000100"])] ∧
    findMessageRefViaAnnotations pipelineAnnotatedActivity "#dev" pullRequestReviewMessageType
      = none ∧
    postMessage_messageRef
      (postMessage exampleBot "#dev" false pipelineMessageType exampleActivity none []
        true).o "#dev" pullRequestReviewMessageType pipelineAnnotatedActivity
      = some ⟨"#dev", "1700000000.000100"⟩ := by
  decide

/-- Claim C7, counterexample. The value written for the channel ID `C0/24`
and the timestamp `1700000000.000100` is read back as the channel ID `C0` and
the timestamp `24/1700000000.000100`: the value is cut at its first `/`. -/
theorem findMessageRefViaAnnotations_slash_in_channelID :
    slashAnnotatedActivity.annotationAt (annotationKey "#dev" pullRequestReviewMessageType)
      = annotationValue "C0/24" "1700000000.000100" ∧
    findMessageRefViaAnnotations slashAnnotatedActivity "#dev" pullRequestReviewMessageType
      = some ⟨"C0", "24/1700000000.000100"⟩ ∧
    findMessageRefViaAnnotations slashAnnotatedActivity "#dev" pullRequestReviewMessageType
      ≠ some ⟨"C0/24", "1700000000.000100"⟩ := by
  decide

/-- Claim C7, amended: annotation round trip. For every channel, message kind
and timestamp and every channel ID without a `/`, an activity whose
annotations hold `annotationValue channelID timestamp` under
`annotationKey channel kind` makes `findMessageRefViaAnnotations` return
exactly that channel ID and timestamp; the cache is not consulted. -/
theorem findMessageRefViaAnnotations_roundtrip (activity : PipelineActivity)
    (channel messageType channelID timestamp : String)
    (hchannelID : '/' ∉ channelID.data)
    (hannot : activity.annotationAt (annotationKey channel messageType)
      = annotationValue channelID timestamp) :
    findMessageRefViaAnnotations activity channel messageType
      = some ⟨channelID, timestamp⟩ :=
  findMessageRef_of_value activity channel messageType channelID timestamp hchannelID
    hannot

/-- Claim C7, witness: the annotation written for the reference
(`C024BE91L`, `1700000000.000100`) on channel `#dev` is read back. -/
theorem findMessageRefViaAnnotations_roundtrip_witness :
    findMessageRefViaAnnotations
      { Name := "build-1",
        Annotations := some (GoMap.insert [] (annotationKey "#dev" pullRequestReviewMessageType)
          (annotationValue "C024BE91L" "1700000000.000100")) }
      "#dev" pullRequestReviewMessageType = some ⟨"C024BE91L", "1700000000.000100"⟩ :=
  findMessageRefViaAnnotations_roundtrip _ "#dev" pullRequestReviewMessageType "C024BE91L"
    "1700000000.000100" (by decide) (by decide)

/-- Claim C8, counterexample. The review message is written back to three
targets and the patch of the second, `build-2`, fails: `build-1` and
`build-2` are the only activities patched. The third target, `build-3`,
needs the annotation and its patch would succeed, but it is never
attempted. -/
theorem postMessage_writeBack_skips_after_failure :
    annotated (postMessage conflictBot "#dev" false pullRequestReviewMessageType
      exampleActivity (some threeTargets) [] true).log = ["build-1", "build-2"] ∧
    "build-3" ∉ annotated (postMessage conflictBot "#dev" false pullRequestReviewMessageType
      exampleActivity (some threeTargets) [] true).log ∧
    ({ Name := "build-3" } : PipelineActivity).annotationAt
      (annotationKey "#dev" pullRequestReviewMessageType) ≠ "#dev/1700000000.000100" ∧
    conflictBot.PatchActivity { Name := "build-3" }
      (annotationKey "#dev" pullRequestReviewMessageType) "#dev/1700000000.000100" = none := by
  decide

/-- Claim C8, amended: the write-back of `postMessage` stops at the first
failure. When the message was sent and the transport answered `(cid, ts)`,
and in the list of targets `failed` is the first one whose patch fails, then
the targets before it that lack the annotation are patched, `failed` is
tried, no later target is attempted, and the error returned by `postMessage`
is the error of that one patch. -/
theorem postMessage_writeBack_stops_at_first_failure (o : SlackBotOptions) (channel : String)
    (directMessage : Bool) (messageType : String) (activity : PipelineActivity)
    (before after : List PipelineActivity) (failed : PipelineActivity)
    (options : List MsgOption) (createIfMissing : Bool)
    (target : String) (opts : List MsgOption) (cid ts : String) (e : GoError)
    (hsent : (target, opts) ∈ sends (postMessage o channel directMessage messageType activity
      (some (before ++ failed :: after)) options createIfMissing).log)
    (hok : o.SendMessage target opts = (cid, ts, none))
    (hbefore : ∀ a ∈ before,
      a.annotationAt (annotationKey channel messageType) ≠ annotationValue cid ts →
      o.PatchActivity a (annotationKey channel messageType) (annotationValue cid ts) = none)
    (hneeds : failed.annotationAt (annotationKey channel messageType) ≠ annotationValue cid ts)
    (hfail : o.PatchActivity failed (annotationKey channel messageType)
      (annotationValue cid ts) = some e) :
    annotated (postMessage o channel directMessage messageType activity
        (some (before ++ failed :: after)) options createIfMissing).log =
      ((before.filter (fun a => decide (a.annotationAt (annotationKey channel messageType)
          ≠ annotationValue cid ts))).map (fun a => a.Name)) ++ [failed.Name] ∧
    (postMessage o channel directMessage messageType activity
        (some (before ++ failed :: after)) options createIfMissing).err = some e := by
  have hpre : sends (if directMessage then [Event.openConversation channel] else []) = [] := by
    cases directMessage <;> rfl
  have hpre2 : annotated (if directMessage then [Event.openConversation channel] else [])
      = [] := by
    cases directMessage <;> rfl
  rcases postMessage_shape o channel directMessage messageType activity
    (some (before ++ failed :: after)) options createIfMissing
    with ⟨h, _⟩ | ⟨t, p, c1, t1, e1, h, hres, _⟩ | ⟨t, p, c1, t1, hres, h⟩
  · rw [h] at hsent; simp at hsent
  · rw [h] at hsent
    simp only [List.mem_singleton, Prod.mk.injEq] at hsent
    rw [hsent.1, hsent.2, hres] at hok
    simp at hok
  · have hlog : sends (postMessage o channel directMessage messageType activity
        (some (before ++ failed :: after)) options createIfMissing).log = [(t, p)] := by
      rw [h]
      simp [sends_append, hpre, sends_writeBack, sends]
    rw [hlog] at hsent
    simp only [List.mem_singleton, Prod.mk.injEq] at hsent
    rw [hsent.1, hsent.2, hres] at hok
    simp only [Prod.mk.injEq, and_true] at hok
    obtain ⟨hc, ht⟩ := hok
    subst hc; subst ht
    have hloop := annotateAll_stops o (annotationKey channel messageType)
      (annotationValue c1 t1) before after failed e hbefore hneeds hfail
    rw [h]
    simp only [postMessage_writeBack, annotated_append, hpre2, annotated, List.nil_append]
    exact hloop

/-- Claim C8, witness: three targets, the patch of the second fails. -/
theorem postMessage_writeBack_stops_at_first_failure_witness :
    annotated (postMessage conflictBot "#dev" false pullRequestReviewMessageType
      exampleActivity (some ([{ Name := "build-1" }] ++ { Name := "build-2" } ::
        [{ Name := "build-3" }])) [] true).log = ["build-1", "build-2"] ∧
    (postMessage conflictBot "#dev" false pullRequestReviewMessageType
      exampleActivity (some ([{ Name := "build-1" }] ++ { Name := "build-2" } ::
        [{ Name := "build-3" }])) [] true).err = some (GoError.msg "conflict") :=
  postMessage_writeBack_stops_at_first_failure conflictBot "#dev" false
    pullRequestReviewMessageType exampleActivity [{ Name := "build-1" }]
    [{ Name := "build-3" }] { Name := "build-2" } [] true "#dev" [] "#dev"
    "1700000000.000100" (GoError.msg "conflict") (by decide) (by rfl)
    (by intro a ha _; simp at ha; subst ha; rfl) (by decide) (by rfl)

/-- Claim C9: record before write-back. Whenever a call of `postMessage` has
sent a message and the transport answered `(cid, ts)` without error, the
cache entry for (channel, activity name) after the call is `(cid, ts)`,
whatever it was before, and every other cache entry reads as before the call.
Nothing is assumed about the write-back or the returned error, so this holds
when the write-back fails. -/
theorem postMessage_records_before_writeBack (o : SlackBotOptions) (channel : String)
    (directMessage : Bool) (messageType : String) (activity : PipelineActivity)
    (all : Option (List PipelineActivity)) (options : List MsgOption)
    (createIfMissing : Bool) (target : String) (opts : List MsgOption) (cid ts : String)
    (hsent : (target, opts) ∈ sends
      (postMessage o channel directMessage messageType activity all options createIfMissing).log)
    (hok : o.SendMessage target opts = (cid, ts, none)) :
    (postMessage o channel directMessage messageType activity all options createIfMissing).o.cached
        channel activity.Name = some ⟨cid, ts⟩ ∧
    ∀ c n : String, c ≠ channel ∨ n ≠ activity.Name →
      (postMessage o channel directMessage messageType activity all options
        createIfMissing).o.cached c n = o.cached c n := by
  rcases postMessage_shape o channel directMessage messageType activity all options
    createIfMissing with ⟨h, _⟩ | ⟨t, p, c1, t1, e, h, hres, _⟩ | ⟨t, p, c1, t1, hres, h⟩
  · rw [h] at hsent; simp at hsent
  · rw [h] at hsent
    simp only [List.mem_singleton, Prod.mk.injEq] at hsent
    rw [hsent.1, hsent.2, hres] at hok
    simp at hok
  · have hlog : sends (postMessage o channel directMessage messageType activity all options
        createIfMissing).log = [(t, p)] := by
      rw [h]
      have hpre : sends (if directMessage then [Event.openConversation channel] else [])
          = [] := by
        cases directMessage <;> rfl
      simp [sends_append, hpre, sends_writeBack, sends]
    rw [hlog] at hsent
    simp only [List.mem_singleton, Prod.mk.injEq] at hsent
    rw [hsent.1, hsent.2, hres] at hok
    simp only [Prod.mk.injEq, and_true] at hok
    rw [h, ← hok.1, ← hok.2]
    refine ⟨cached_record_same _ _ _ _, ?_⟩
    intro c n hcn
    show (postMessage_record _ _ _ _).cached c n = _
    rw [cached_record_other _ _ _ _ _ _ hcn, cached_ensureChannel]

/-- Claim C9, witness: an update of the cached message of `build-1` whose
write-back fails on `build-2`. The call returns the error, and the cache entry
has been overwritten with the answer of the transport. -/
theorem postMessage_records_before_writeBack_witness :
    { cachedBot with PatchActivity := conflictBot.PatchActivity }.cached "#dev" "build-1"
      = some ⟨"C0CACHED", "1600000000.000200"⟩ ∧
    (postMessage { cachedBot with PatchActivity := conflictBot.PatchActivity } "#dev" false
      pullRequestReviewMessageType exampleActivity (some threeTargets) [] true).err
      = some (GoError.msg "conflict") ∧
    (postMessage { cachedBot with PatchActivity := conflictBot.PatchActivity } "#dev" false
      pullRequestReviewMessageType exampleActivity (some threeTargets) [] true).o.cached
      "#dev" exampleActivity.Name = some ⟨"C0CACHED", "1700000000.000100"⟩ ∧
    ∀ c n : String, c ≠ "#dev" ∨ n ≠ exampleActivity.Name →
      (postMessage { cachedBot with PatchActivity := conflictBot.PatchActivity } "#dev" false
        pullRequestReviewMessageType exampleActivity (some threeTargets) [] true).o.cached c n
        = { cachedBot with PatchActivity := conflictBot.PatchActivity }.cached c n :=
  ⟨by decide, by decide,
    postMessage_records_before_writeBack
      { cachedBot with PatchActivity := conflictBot.PatchActivity } "#dev" false
      pullRequestReviewMessageType exampleActivity (some threeTargets) [] true "C0CACHED"
      [MsgOption.update "1600000000.000200"] "C0CACHED" "1700000000.000100" (by decide)
      (by rfl)⟩

/-- Claim C10, counterexample. For a direct message with no existing
reference and `createIfMissing` false, `postMessage` still calls the
transport to open the conversation; and when that call fails, `postMessage`
returns an error. -/
theorem postMessage_suppressed_direct_opens_conversation :
    postMessage_messageRef exampleBot "U1" pipelineMessageType exampleActivity = none ∧
    (postMessage exampleBot "U1" true pipelineMessageType exampleActivity none [] false).log
      = [Event.openConversation "U1"] ∧
    postMessage_messageRef closedBot "U1" pipelineMessageType exampleActivity = none ∧
    (postMessage closedBot "U1" true pipelineMessageType exampleActivity none [] false).err
      = some (GoError.wrap "(open converation channelId: U1)"
          (GoError.msg "user_not_found")) := by
  decide

/-- Claim C10, amended: create-if-missing suppression. When no existing
reference is found and `createIfMissing` is false, `postMessage` sends no
message, patches no annotation and leaves every cache entry as it was (at
most the empty map of the channel is allocated). For a channel post it makes
no transport call at all and returns no error. For a
direct message it makes exactly one transport call, the opening of the
conversation, and returns no error exactly when that call succeeds. -/
theorem postMessage_suppressed (o : SlackBotOptions) (channel : String)
    (directMessage : Bool) (messageType : String) (activity : PipelineActivity)
    (all : Option (List PipelineActivity)) (options : List MsgOption)
    (href : postMessage_messageRef o channel messageType activity = none) :
    sends (postMessage o channel directMessage messageType activity all options false).log = [] ∧
    annotated (postMessage o channel directMessage messageType activity all options false).log
      = [] ∧
    (∀ c n : String,
      (postMessage o channel directMessage messageType activity all options false).o.cached c n
        = o.cached c n) ∧
    (directMessage = false →
      (postMessage o channel directMessage messageType activity all options false).log = [] ∧
      (postMessage o channel directMessage messageType activity all options false).err = none) ∧
    (directMessage = true →
      (postMessage o channel directMessage messageType activity all options false).log
        = [Event.openConversation channel] ∧
      ((postMessage o channel directMessage messageType activity all options false).err = none ↔
        ∃ id, o.OpenConversation channel = Except.ok id)) := by
  cases directMessage with
  | false =>
    rw [postMessage_channel]
    simp [href, postMessage_timestamp, sends, annotated, cached_ensureChannel]
  | true =>
    cases hopen : o.OpenConversation channel with
    | error e =>
      rw [postMessage_direct_error _ _ _ _ _ _ _ _ hopen]
      simp [sends, annotated, cached_ensureChannel]
    | ok id =>
      rw [postMessage_direct _ _ _ _ _ _ _ _ hopen]
      simp [href, postMessage_timestamp, sends, annotated, cached_ensureChannel]

/-- Claim C10, witness: a suppressed channel post makes no call; a suppressed
direct message opens the conversation and nothing else. -/
theorem postMessage_suppressed_witness :
    ((postMessage exampleBot "#dev" false pipelineMessageType exampleActivity none [] false).log
        = [] ∧
      (postMessage exampleBot "#dev" false pipelineMessageType exampleActivity none []
        false).err = none) ∧
    ((postMessage exampleBot "U1" true pipelineMessageType exampleActivity none [] false).log
        = [Event.openConversation "U1"] ∧
      sends (postMessage exampleBot "U1" true pipelineMessageType exampleActivity none []
        false).log = []) :=
  ⟨(postMessage_suppressed exampleBot "#dev" false pipelineMessageType exampleActivity none []
      (by decide)).2.2.2.1 rfl,
    ((postMessage_suppressed exampleBot "U1" true pipelineMessageType exampleActivity none []
      (by decide)).2.2.2.2 rfl).1,
    (postMessage_suppressed exampleBot "U1" true pipelineMessageType exampleActivity none []
      (by decide)).1⟩

/-! ## Lemmas on the coordinators and the message composition -/

/-- The characters of an annotation key. -/
theorem annotationKey_data (channel kind : String) :
    (annotationKey channel kind).data =
      "bot.slack.apps.jenkins-x.io-".data ++ kind.data ++
        '/' :: (strings.TrimPrefix channel "#").data := by
  simp [annotationKey, SlackAnnotationPrefix, String.data_append]

/-- Trimming `#` removes one leading `#` and nothing else. -/
theorem trimPrefix_hash (channel : String) :
    strings.TrimPrefix channel "#" =
      if channel.data.head? = some '#' then ⟨channel.data.tail⟩ else channel := by
  unfold strings.TrimPrefix strings.HasPrefix
  rcases channel with ⟨l⟩
  cases l with
  | nil => rfl
  | cons c cs =>
    have hd : "#".data = ['#'] := rfl
    by_cases h : c = '#'
    · subst h
      simp [hd, List.isPrefixOf]
    · have h2 : ¬ '#' = c := fun e => h e.symm
      simp [hd, List.isPrefixOf, h, h2]

/-- With a `nil` pull request and a non-empty list of labels to ignore,
`isEnabled` panics. -/
theorem isEnabled_panics_of_nil (c : Collaborators) (activity : PipelineActivity)
    (ignoreLabels : List String) (hpr : getPullRequest c activity = (none, none))
    (hne : ignoreLabels ≠ []) : isEnabled c activity ignoreLabels = Outcome.panic := by
  have hlen : ignoreLabels.length > 0 := List.length_pos.2 hne
  simp [isEnabled, hpr, hlen]

/-- An activity that is not one of a numbered pull request has a `nil` pull
request and no error. -/
theorem getPullRequest_of_not_pr (c : Collaborators) (activity : PipelineActivity)
    (h : ¬ (getPullRequestNumber activity).1 > 0) :
    getPullRequest c activity = (none, none) := by
  unfold getPullRequest
  rcases hn : getPullRequestNumber activity with ⟨prn, err⟩
  rw [hn] at h
  simp only [] at h ⊢
  rw [if_neg h]

/-- The labels found by `isEnabled` are not empty exactly when a label of the
pull request is one of the labels to ignore. -/
theorem isEnabled_found_pos (ignoreLabels : List String) (labels : List Label) :
    (isEnabled_found ignoreLabels labels).length > 0 ↔
      ∃ label ∈ labels, label.Name ∈ ignoreLabels := by
  show 0 < (isEnabled_found ignoreLabels labels).length ↔ _
  rw [List.length_pos_iff_exists_mem]
  unfold isEnabled_found
  constructor
  · rintro ⟨x, hx⟩
    simp only [List.mem_flatMap, List.mem_map, List.mem_filter, decide_eq_true_eq] at hx
    obtain ⟨l, hl, v, ⟨hv, hname⟩, _⟩ := hx
    exact ⟨v, hv, by rw [hname]; exact hl⟩
  · rintro ⟨v, hv, hname⟩
    refine ⟨v.Name, ?_⟩
    simp only [List.mem_flatMap, List.mem_map, List.mem_filter, decide_eq_true_eq]
    exact ⟨v.Name, hname, v, ⟨hv, rfl⟩, rfl⟩

/-- The two answers of `isEnabled` for a pull request that was found. -/
theorem isEnabled_of_pull_request (c : Collaborators) (activity : PipelineActivity)
    (ignoreLabels : List String) (pr : PullRequest)
    (hpr : getPullRequest c activity = (some pr, none)) :
    isEnabled c activity ignoreLabels =
      if ∃ label ∈ pr.Labels, label.Name ∈ ignoreLabels then Outcome.ok (false, none)
      else Outcome.ok (true, some pr) := by
  unfold isEnabled
  simp only [hpr]
  by_cases hlen : ignoreLabels.length > 0
  · simp only [hlen, if_true, isEnabled_found_pos]
  · have hnil : ignoreLabels = [] := by
      cases ignoreLabels with
      | nil => rfl
      | cons a t => simp at hlen
    subst hnil
    simp

/-- A pull request that was found has a positive number, read without
error. -/
theorem getPullRequestNumber_of_found (c : Collaborators) (activity : PipelineActivity)
    (pr : PullRequest) (hpr : getPullRequest c activity = (some pr, none)) :
    ∃ prn, getPullRequestNumber activity = (prn, none) ∧ 0 < prn := by
  unfold getPullRequest at hpr
  rcases hn : getPullRequestNumber activity with ⟨prn, err⟩
  rw [hn] at hpr
  simp only [] at hpr
  by_cases hpos : prn > 0
  · rw [if_pos hpos] at hpr
    cases err with
    | none => exact ⟨prn, rfl, hpos⟩
    | some e => simp at hpr
  · rw [if_neg hpos] at hpr
    simp at hpr

/-- The value of `createIfMissing` in every successful result of
`createPipelineMessage`. -/
theorem createPipelineMessage_createIfMissing (c : Collaborators)
    (activity : PipelineActivity) (pr : Option PullRequest) (options : List MsgOption)
    (createIfMissing : Bool)
    (h : createPipelineMessage c activity pr = Outcome.ok (options, createIfMissing)) :
    createIfMissing =
      (if getLastUpdatedTime none activity < c.Now - 24 * 60 * 60 then false else true) := by
  unfold createPipelineMessage at h
  simp only [] at h
  split at h
  · simp at h
  · split at h
    · simp at h
    · split at h
      · simp at h
      · simp at h
      · simp only [Outcome.ok.injEq, Prod.mk.injEq] at h
        exact h.2.symm

/-- The last-updated time of an activity without pull request: the later of
its timestamps, but not less than -1. -/
theorem getLastUpdatedTime_eq_max (activity : PipelineActivity) :
    getLastUpdatedTime none activity = max (-1) (laterTimestamp activity) := by
  unfold getLastUpdatedTime laterTimestamp
  cases activity.Spec.StartedTimestamp <;> cases activity.Spec.CompletedTimestamp <;>
    simp only [] <;> (repeat' split) <;> omega

/-- The method `createPipelineMessage` returns without error and without
panic whenever the pull request number of the activity parses and, if it is
positive, a pull request is given. -/
theorem createPipelineMessage_returns (c : Collaborators) (activity : PipelineActivity)
    (pr : Option PullRequest)
    (hprn : (getPullRequestNumber activity).2 = none)
    (hpr : 0 < (getPullRequestNumber activity).1 → pr ≠ none) :
    ∃ options createIfMissing,
      createPipelineMessage c activity pr = Outcome.ok (options, createIfMissing) := by
  rcases hg : getPullRequestNumber activity with ⟨prn, e⟩
  rw [hg] at hprn hpr
  simp only [] at hprn hpr
  subst hprn
  have hname : ∃ name, pipelineName activity = (name, none) := by
    unfold pipelineName
    rw [hg]
    simp only []
    split
    · exact ⟨_, rfl⟩
    · split <;> exact ⟨_, rfl⟩
  obtain ⟨name, hname⟩ := hname
  unfold createPipelineMessage
  simp only [hname, hg]
  by_cases hpos : prn > 0
  · cases pr with
    | none => exact absurd rfl (hpr hpos)
    | some p =>
      simp only [if_pos hpos]
      exact ⟨_, _, rfl⟩
  · simp only [if_neg hpos]
    exact ⟨_, _, rfl⟩

/-- The opened conversations of a concatenated log. -/
theorem opened_append (l1 l2 : List Event) : opened (l1 ++ l2) = opened l1 ++ opened l2 := by
  induction l1 with
  | nil => rfl
  | cons e rest ih => cases e <;> simp [opened, ih]

/-- The write-back loop opens no conversation. -/
theorem opened_annotateAll (o : SlackBotOptions) (key value : String)
    (targets : List PipelineActivity) :
    opened (postMessage_annotateAll o key value targets).1 = [] := by
  induction targets with
  | nil => rfl
  | cons a rest ih =>
    unfold postMessage_annotateAll
    split
    · split <;> simp [opened, ih]
    · exact ih

/-- The write-back opens no conversation. -/
theorem opened_writeBack (o : SlackBotOptions) (activity : PipelineActivity)
    (all : Option (List PipelineActivity)) (key value : String) :
    opened (postMessage_writeBack o activity all key value).1 = [] := by
  unfold postMessage_writeBack
  cases all with
  | none => simp only []; split <;> rfl
  | some targets => exact opened_annotateAll o key value targets

/-- The send block opens no conversation. -/
theorem opened_sent (o o1 : SlackBotOptions) (channel kind : String)
    (activity : PipelineActivity) (all : Option (List PipelineActivity))
    (target : String) (opts : List MsgOption) (pre : List Event) :
    opened (postMessage_send o o1 channel kind activity all target opts pre).log
      = opened pre := by
  rcases hres : o.SendMessage target opts with ⟨cid, ts, _ | e⟩
  · rw [postMessage_send_ok _ _ _ _ _ _ _ _ _ _ _ hres]
    simp [opened_append, opened_writeBack, opened]
  · rw [postMessage_send_error _ _ _ _ _ _ _ _ _ _ _ _ hres]
    simp [opened_append, opened]

/-- A channel post opens no conversation. -/
theorem opened_postMessage_channel (o : SlackBotOptions) (channel kind : String)
    (activity : PipelineActivity) (all : Option (List PipelineActivity))
    (options : List MsgOption) (createIfMissing : Bool) :
    opened (postMessage o channel false kind activity all options createIfMissing).log
      = [] := by
  rw [postMessage_channel]
  split
  · rw [opened_sent]; rfl
  · split
    · rw [opened_sent]; rfl
    · rfl

/-- Every successful result of `createReviewersMessage` has an empty list of
reviewers. -/
theorem createReviewersMessage_reviewers (c : Collaborators) (activity : PipelineActivity)
    (notifyReviewers : Bool) (pr : Option PullRequest) (message : ReviewersMessage)
    (h : createReviewersMessage c activity notifyReviewers pr = Outcome.ok message) :
    message.reviewers = [] := by
  unfold createReviewersMessage at h
  split at h
  · simp at h
  · split at h
    · simp at h
    · simp only [Outcome.ok.injEq] at h
      rw [← h]
    · simp only [] at h
      split at h
      · simp at h
      · split at h
        · simp at h
        · simp at h
        · split at h
          · simp at h
          · simp only [Outcome.ok.injEq] at h
            rw [← h]

/-! ## The claims on the coordinators -/

/-- Claim C11, the failing input evaluated. The configuration overrides the
status `Merged`. For the merged pull request of `bob`, `createReviewersMessage`
answers the override, which is not the pointer `defaultStatuses.Merged`, so
`ReviewRequestMessage` calls `postMessage` with `createIfMissing` true: with
no existing message it creates a review message for the merged pull request.
Without the override nothing is sent. -/
theorem ReviewRequestMessage_creates_for_merged_with_override :
    mergedPullRequest.Merged = true ∧
    (∃ message, createReviewersMessage (overrideCollaborators mergedPullRequest [recentBuild])
        recentBuild true (some mergedPullRequest) = Outcome.ok message ∧
      message.buildStatus = some (StatusPtr.override StatusKind.Merged)) ∧
    postMessage_messageRef exampleBot "#dev" pullRequestReviewMessageType recentBuild = none ∧
    (∃ attachments, sends (ReviewRequestMessage
        (createReviewersMessage (overrideCollaborators mergedPullRequest [recentBuild]))
        (overrideCollaborators mergedPullRequest [recentBuild]) exampleBot recentBuild).log
      = [("#dev", [MsgOption.attachments attachments])]) ∧
    sends (ReviewRequestMessage
        (createReviewersMessage (reviewCollaborators mergedPullRequest [recentBuild]))
        (reviewCollaborators mergedPullRequest [recentBuild]) exampleBot recentBuild).log
      = [] := by
  refine ⟨by decide, ⟨_, rfl, by decide⟩, by decide, ⟨_, rfl⟩, by decide⟩

/-- Claim C12: the create-if-missing policy for pipeline-status messages. The
clock reads a time at least 24 hours after the Unix epoch, as every reading
of `time.Now()` by a running bot does. Then every result that
`createPipelineMessage` returns without error has `createIfMissing` false
exactly when the last-updated time of the activity, in the words of the
claim the later of its start and completion timestamps in epoch seconds or
-1 when it has neither, is strictly earlier than now minus 24 hours, and
true otherwise. The code computes that time as `getLastUpdatedTime`, which
is the same number unless both timestamps lie before -1, where either number
is below the threshold. The method does return such a result whenever the
pull request number of the activity parses and, if positive, comes with a
pull request. -/
theorem createPipelineMessage_policy (c : Collaborators) (activity : PipelineActivity)
    (pr : Option PullRequest) (hnow : 24 * 60 * 60 ≤ c.Now) :
    (∀ options createIfMissing,
      createPipelineMessage c activity pr = Outcome.ok (options, createIfMissing) →
        (createIfMissing = false ↔ laterTimestamp activity < c.Now - 24 * 60 * 60) ∧
        (createIfMissing = true ↔ ¬ laterTimestamp activity < c.Now - 24 * 60 * 60)) ∧
    getLastUpdatedTime none activity = max (-1) (laterTimestamp activity) ∧
    ((getPullRequestNumber activity).2 = none →
      (0 < (getPullRequestNumber activity).1 → pr ≠ none) →
      ∃ options createIfMissing,
        createPipelineMessage c activity pr = Outcome.ok (options, createIfMissing)) := by
  have hm := getLastUpdatedTime_eq_max activity
  refine ⟨?_, hm, createPipelineMessage_returns c activity pr⟩
  intro options createIfMissing h
  have hc := createPipelineMessage_createIfMissing c activity pr options createIfMissing h
  have hiff : getLastUpdatedTime none activity < c.Now - 24 * 60 * 60 ↔
      laterTimestamp activity < c.Now - 24 * 60 * 60 := by
    rw [hm]
    constructor
    · intro hlt
      exact lt_of_le_of_lt (le_max_right _ _) hlt
    · intro hlt
      exact max_lt (by omega) hlt
  by_cases hlt : getLastUpdatedTime none activity < c.Now - 24 * 60 * 60
  · rw [if_pos hlt] at hc
    exact ⟨⟨fun _ => hiff.1 hlt, fun _ => hc⟩,
      ⟨fun ht => (by rw [hc] at ht; cases ht), fun hn => absurd (hiff.1 hlt) hn⟩⟩
  · rw [if_neg hlt] at hc
    exact ⟨⟨fun hf => (by rw [hc] at hf; cases hf), fun hl => absurd (hiff.2 hl) hlt⟩,
      ⟨fun _ => fun hl => hlt (hiff.2 hl), fun _ => hc⟩⟩

/-- Claim C12, witness: with the clock at 1700000000, the activity started at
1699999000 is within the last 24 hours and is returned with `createIfMissing`
true; the one started two days before the clock is older and is returned
with `createIfMissing` false. -/
theorem createPipelineMessage_policy_witness :
    (24 * 60 * 60 ≤ (reviewCollaborators openPullRequest []).Now) ∧
    (¬ laterTimestamp masterActivity
        < (reviewCollaborators openPullRequest []).Now - 24 * 60 * 60 ∧
      ∃ options, createPipelineMessage (reviewCollaborators openPullRequest [])
        masterActivity none = Outcome.ok (options, true)) ∧
    (laterTimestamp staleActivity
        < (reviewCollaborators openPullRequest []).Now - 24 * 60 * 60 ∧
      ∃ options, createPipelineMessage (reviewCollaborators openPullRequest [])
        staleActivity none = Outcome.ok (options, false)) :=
  ⟨by decide,
    ⟨((createPipelineMessage_policy (reviewCollaborators openPullRequest []) masterActivity
      none (by decide)).1 _ true rfl).2.1 rfl, ⟨_, rfl⟩⟩,
    ⟨((createPipelineMessage_policy (reviewCollaborators openPullRequest []) staleActivity
      none (by decide)).1 _ false rfl).1.1 rfl, ⟨_, rfl⟩⟩⟩

/-- Claim C13, the failing input evaluated. The only known activity of the
pull request has the build number `abc`, which does not parse. The incoming
activity has build 10. `ReviewRequestMessage` takes 0 for the build number of
the newest activity, finds 10 not older, posts the review message and returns
no error. -/
theorem ReviewRequestMessage_ignores_unparseable_latest_build :
    findPipelineActivities (reviewCollaborators openPullRequest [unnumberedBuild]) recentBuild
      = Outcome.ok ⟨some unnumberedBuild, some unnumberedBuild, some [unnumberedBuild]⟩ ∧
    strconv.Atoi (CreatePipelineDetails unnumberedBuild).Build
      = (0, some (GoError.atoiSyntax "abc")) ∧
    (sends (ReviewRequestMessage
        (createReviewersMessage (reviewCollaborators openPullRequest [unnumberedBuild]))
        (reviewCollaborators openPullRequest [unnumberedBuild]) exampleBot recentBuild).log).map
      Prod.fst = ["#dev"] ∧
    (ReviewRequestMessage
        (createReviewersMessage (reviewCollaborators openPullRequest [unnumberedBuild]))
        (reviewCollaborators openPullRequest [unnumberedBuild]) exampleBot recentBuild).exit
      = Exit.returned none := by
  decide

/-- Claim C14: the label filter. For a pull request found for the activity,
`isEnabled` reports "not enabled", with no error, if and only if a label name
of the pull request is one of the labels to ignore, and reports "enabled" with
the pull request otherwise. When the pull request carries one of the ignore
labels of the configuration of a named activity, `PipelineMessage` and
`ReviewRequestMessage` make no call, leave the cache as it was and return no
error. -/
theorem isEnabled_label_filter
    (createReviewersMessage :
      PipelineActivity → Bool → Option PullRequest → Outcome ReviewersMessage)
    (c : Collaborators) (o : SlackBotOptions) (activity : PipelineActivity)
    (pr : PullRequest) (cfg : SlackNotify) (ignoreLabels : List String)
    (hpr : getPullRequest c activity = (some pr, none))
    (hname : activity.Name ≠ "")
    (hcfg : getSlackConfigForPipeline c activity = some cfg) :
    (isEnabled c activity ignoreLabels = Outcome.ok (false, none) ↔
      ∃ label ∈ pr.Labels, label.Name ∈ ignoreLabels) ∧
    ((¬ ∃ label ∈ pr.Labels, label.Name ∈ ignoreLabels) →
      isEnabled c activity ignoreLabels = Outcome.ok (true, some pr)) ∧
    ((∃ label ∈ pr.Labels, label.Name ∈ cfg.IgnorePullLabels) →
      PipelineMessage c o activity = ⟨o, [], Exit.returned none⟩ ∧
      ReviewRequestMessage createReviewersMessage c o activity
        = ⟨o, [], Exit.returned none⟩) := by
  have hen := isEnabled_of_pull_request c activity ignoreLabels pr hpr
  refine ⟨?_, ?_, ?_⟩
  · rw [hen]
    by_cases h : ∃ label ∈ pr.Labels, label.Name ∈ ignoreLabels
    · simp [h]
    · simp [h]
  · intro h
    rw [hen, if_neg h]
  · intro h
    have hen2 := isEnabled_of_pull_request c activity cfg.IgnorePullLabels pr hpr
    rw [if_pos h] at hen2
    obtain ⟨prn, hprn, hpos⟩ := getPullRequestNumber_of_found c activity pr hpr
    have hnp : ¬ prn ≤ 0 := not_le.2 hpos
    constructor
    · unfold PipelineMessage
      simp only [hname, if_false, hcfg, hen2]
      split <;> rfl
    · unfold ReviewRequestMessage
      simp only [hname, if_false, hprn, hnp, hcfg, hen2]
      split <;> rfl

/-- Claim C14, witness: the pull request of `bob` carries `wip`, which the
configuration ignores. -/
theorem isEnabled_label_filter_witness :
    (isEnabled (reviewCollaborators labelledPullRequest [recentBuild]) recentBuild ["wip"]
        = Outcome.ok (false, none) ↔
      ∃ label ∈ labelledPullRequest.Labels, label.Name ∈ ["wip"]) ∧
    isEnabled (reviewCollaborators labelledPullRequest [recentBuild]) recentBuild ["wip"]
      = Outcome.ok (false, none) ∧
    isEnabled (reviewCollaborators labelledPullRequest [recentBuild]) recentBuild ["hold"]
      = Outcome.ok (true, some labelledPullRequest) ∧
    PipelineMessage (reviewCollaborators labelledPullRequest [recentBuild]) exampleBot
      recentBuild = ⟨exampleBot, [], Exit.returned none⟩ ∧
    ReviewRequestMessage
      (createReviewersMessage (reviewCollaborators labelledPullRequest [recentBuild]))
      (reviewCollaborators labelledPullRequest [recentBuild]) exampleBot recentBuild
      = ⟨exampleBot, [], Exit.returned none⟩ :=
  ⟨(isEnabled_label_filter
      (createReviewersMessage (reviewCollaborators labelledPullRequest [recentBuild]))
      (reviewCollaborators labelledPullRequest [recentBuild]) exampleBot recentBuild
      labelledPullRequest
      { Channel := "dev", DirectMessage := true, NotifyReviewers := true,
        IgnorePullLabels := ["wip"] } ["wip"] (by decide) (by decide) (by rfl)).1,
    by decide,
    (isEnabled_label_filter
      (createReviewersMessage (reviewCollaborators labelledPullRequest [recentBuild]))
      (reviewCollaborators labelledPullRequest [recentBuild]) exampleBot recentBuild
      labelledPullRequest
      { Channel := "dev", DirectMessage := true, NotifyReviewers := true,
        IgnorePullLabels := ["wip"] } ["hold"] (by decide) (by decide) (by rfl)).2.1
      (by decide),
    (isEnabled_label_filter
      (createReviewersMessage (reviewCollaborators labelledPullRequest [recentBuild]))
      (reviewCollaborators labelledPullRequest [recentBuild]) exampleBot recentBuild
      labelledPullRequest
      { Channel := "dev", DirectMessage := true, NotifyReviewers := true,
        IgnorePullLabels := ["wip"] } ["wip"] (by decide) (by decide) (by rfl)).2.2
      (by decide)⟩

/-- Claim C15, counterexample. The repository notifies the channel `dev` and
the author directly, and the author `bob` resolves to the Slack user `U-Bob`.
The channel post of `PipelineMessage` fails: the call returns that failure and
the conversation with the author is never opened. With a transport that
works, the conversation is opened. -/
theorem PipelineMessage_failed_channel_post_stops_direct_message :
    resolveGitUserToSlackUser (reviewCollaborators openPullRequest [])
      openPullRequest.Author = ("U-Bob", none) ∧
    (sends (PipelineMessage (reviewCollaborators openPullRequest []) failingSendBot
      recentBuild).log).map Prod.fst = ["#dev"] ∧
    opened (PipelineMessage (reviewCollaborators openPullRequest []) failingSendBot
      recentBuild).log = [] ∧
    (PipelineMessage (reviewCollaborators openPullRequest []) failingSendBot recentBuild).exit
      = Exit.returned (some (GoError.wrap
          "error posting cfg for org-repo-pr-7-10 to channel #dev"
          (GoError.wrap "(post channelId: , timestamp: )"
            (GoError.msg "channel_not_found")))) ∧
    opened (PipelineMessage (reviewCollaborators openPullRequest []) exampleBot
      recentBuild).log = ["U-Bob"] := by
  decide

/-- Claim C15, amended: the coordinator stops at the first failing target.
(1) When the channel post of `PipelineMessage` fails, the call ends there: its
calls are those of the channel post, no conversation is opened, and it
returns that failure wrapped with the activity and the channel. (2) The same
holds for the channel post of a review message. (3) In the loop over the
reviewers, a failing direct message ends the call: the reviewers after it are
not attempted and that failure is returned, wrapped. -/
theorem coordinator_stops_at_first_failure
    (createReviewersMessage :
      PipelineActivity → Bool → Option PullRequest → Outcome ReviewersMessage)
    (c : Collaborators) (o : SlackBotOptions) (activity oldestActivity : PipelineActivity)
    (cfg : SlackNotify) (pullRequest : Option PullRequest)
    (all : Option (List PipelineActivity)) (options : List MsgOption)
    (createIfMissing : Bool) (message : ReviewersMessage) (attachments : List Attachment)
    (user : SlackUser) (rest : List (Option SlackUser)) (e : GoError)
    (hname : activity.Name ≠ "")
    (hcfg : getSlackConfigForPipeline c activity = some cfg)
    (hchannel : cfg.Channel ≠ "") (hdisable : cfg.Disable = false) :
    (isEnabled c activity cfg.IgnorePullLabels = Outcome.ok (true, pullRequest) →
      createPipelineMessage c activity pullRequest = Outcome.ok (options, createIfMissing) →
      c.shouldSendPipelineMessage activity cfg = true →
      (postMessage o (channelName cfg.Channel) false pipelineMessageType activity none options
        createIfMissing).err = some e →
      PipelineMessage c o activity =
        ⟨(postMessage o (channelName cfg.Channel) false pipelineMessageType activity none
            options createIfMissing).o,
          (postMessage o (channelName cfg.Channel) false pipelineMessageType activity none
            options createIfMissing).log,
          Exit.returned (some (GoError.wrap
            ("error posting cfg for " ++ activity.Name ++ " to channel "
              ++ channelName cfg.Channel) e))⟩ ∧
      opened (PipelineMessage c o activity).log = []) ∧
    (createReviewersMessage activity cfg.NotifyReviewers pullRequest = Outcome.ok message →
      message.attachments = some attachments →
      (postMessage o (channelName cfg.Channel) false pullRequestReviewMessageType
        oldestActivity all [MsgOption.attachments attachments]
        (if message.buildStatus = some (StatusPtr.defaultStatuses StatusKind.Merged)
            ∨ message.buildStatus = some (StatusPtr.defaultStatuses StatusKind.Closed)
          then false else true)).err = some e →
      opened (ReviewRequestMessage_post createReviewersMessage o cfg activity pullRequest
        oldestActivity all).log = [] ∧
      (ReviewRequestMessage_post createReviewersMessage o cfg activity pullRequest
        oldestActivity all).exit =
        Exit.returned (some (GoError.wrap
          ("error posting PR review request for " ++ activity.Name ++ " to channel "
            ++ channelName cfg.Channel) e))) ∧
    ((postMessage o user.ID true pullRequestReviewMessageType oldestActivity all options
        createIfMissing).err = some e →
      ReviewRequestMessage_direct activity.Name oldestActivity all options createIfMissing o
          (some user :: rest) =
        ⟨(postMessage o user.ID true pullRequestReviewMessageType oldestActivity all options
            createIfMissing).o,
          (postMessage o user.ID true pullRequestReviewMessageType oldestActivity all options
            createIfMissing).log,
          Exit.returned (some (GoError.wrap
            ("error sending direct PR review request for " ++ activity.Name ++ " to "
              ++ user.ID) e))⟩) := by
  refine ⟨?_, ?_, ?_⟩
  · intro henabled hmessage hsend hfail
    have heq : PipelineMessage c o activity =
        ⟨(postMessage o (channelName cfg.Channel) false pipelineMessageType activity none
            options createIfMissing).o,
          (postMessage o (channelName cfg.Channel) false pipelineMessageType activity none
            options createIfMissing).log,
          Exit.returned (some (GoError.wrap
            ("error posting cfg for " ++ activity.Name ++ " to channel "
              ++ channelName cfg.Channel) e))⟩ := by
      unfold PipelineMessage
      simp only [hname, if_false, hcfg, hchannel, hdisable, henabled, hmessage, hsend,
        Bool.false_eq_true, or_self, ne_eq, not_false_eq_true, and_self, if_true, hfail]
    refine ⟨heq, ?_⟩
    rw [heq]
    exact opened_postMessage_channel _ _ _ _ _ _ _
  · intro hmessage hattachments hfail
    unfold ReviewRequestMessage_post
    simp only [hmessage, hattachments, hchannel, ne_eq, not_false_eq_true, if_true, hfail]
    exact ⟨opened_postMessage_channel _ _ _ _ _ _ _, trivial⟩
  · intro hfail
    simp only [ReviewRequestMessage_direct, hfail]

/-- Claim C15, witness: the failing channel post of `PipelineMessage` for
build 10 of the pull request of `bob`. -/
theorem coordinator_stops_at_first_failure_witness :
    opened (PipelineMessage (reviewCollaborators openPullRequest []) failingSendBot
      recentBuild).log = [] ∧
    (PipelineMessage (reviewCollaborators openPullRequest []) failingSendBot recentBuild).exit
      = Exit.returned (some (GoError.wrap
          ("error posting cfg for " ++ recentBuild.Name ++ " to channel " ++ channelName "dev")
          (GoError.wrap "(post channelId: , timestamp: )"
            (GoError.msg "channel_not_found")))) :=
  ⟨((coordinator_stops_at_first_failure
      (createReviewersMessage (reviewCollaborators openPullRequest []))
      (reviewCollaborators openPullRequest []) failingSendBot recentBuild recentBuild
      { Channel := "dev", DirectMessage := true, NotifyReviewers := true,
        IgnorePullLabels := ["wip"] }
      (some openPullRequest) none _ true ⟨none, [], none⟩ [] { ID := "U-Alice" } []
      (GoError.wrap "(post channelId: , timestamp: )" (GoError.msg "channel_not_found"))
      (by decide) (by rfl) (by decide) (by rfl)).1
      (by decide) (by rfl) (by rfl) (by rfl)).2,
    congrArg CallResult.exit ((coordinator_stops_at_first_failure
      (createReviewersMessage (reviewCollaborators openPullRequest []))
      (reviewCollaborators openPullRequest []) failingSendBot recentBuild recentBuild
      { Channel := "dev", DirectMessage := true, NotifyReviewers := true,
        IgnorePullLabels := ["wip"] }
      (some openPullRequest) none _ true ⟨none, [], none⟩ [] { ID := "U-Alice" } []
      (GoError.wrap "(post channelId: , timestamp: )" (GoError.msg "channel_not_found"))
      (by decide) (by rfl) (by decide) (by rfl)).1
      (by decide) (by rfl) (by rfl) (by rfl)).1⟩

/-- Claim C16, the failing input evaluated. Direct messages and reviewer
notification are both enabled, and the reviewer `alice` of the pull request
resolves to a user with the Slack login `U-Alice`. The list of reviewers
returned by `createReviewersMessage` is empty, and `ReviewRequestMessage`
posts to the channel only: no conversation is opened. The list is empty for
every input. -/
theorem ReviewRequestMessage_never_messages_reviewers :
    getSlackConfigForPipeline (reviewCollaborators openPullRequest [recentBuild]) recentBuild
      = some { Channel := "dev", DirectMessage := true, NotifyReviewers := true,
               IgnorePullLabels := ["wip"] } ∧
    openPullRequest.Reviewers = [{ Login := "alice", Name := "Alice" }] ∧
    resolveGitUserToSlackUser (reviewCollaborators openPullRequest [recentBuild])
      { Login := "alice", Name := "Alice" } = ("U-Alice", none) ∧
    (∃ attachments buildStatus,
      createReviewersMessage (reviewCollaborators openPullRequest [recentBuild]) recentBuild
        true (some openPullRequest) = Outcome.ok ⟨some attachments, [], buildStatus⟩) ∧
    (sends (ReviewRequestMessage
        (createReviewersMessage (reviewCollaborators openPullRequest [recentBuild]))
        (reviewCollaborators openPullRequest [recentBuild]) exampleBot recentBuild).log).map
      Prod.fst = ["#dev"] ∧
    opened (ReviewRequestMessage
        (createReviewersMessage (reviewCollaborators openPullRequest [recentBuild]))
        (reviewCollaborators openPullRequest [recentBuild]) exampleBot recentBuild).log
      = [] ∧
    (∀ (c : Collaborators) (activity : PipelineActivity) (notifyReviewers : Bool)
      (pr : Option PullRequest) (message : ReviewersMessage),
      createReviewersMessage c activity notifyReviewers pr = Outcome.ok message →
      message.reviewers = []) := by
  refine ⟨by decide, by decide, by decide, ⟨_, _, rfl⟩, by decide, by decide, ?_⟩
  exact createReviewersMessage_reviewers

/-- Claim C17: annotation key format and disambiguation. The key of a channel
and a message kind is the fixed text `bot.slack.apps.jenkins-x.io-`, the kind,
a `/` and the channel without one leading `#`. For the two kinds in use, two
keys are equal only if the kinds are equal and the channels are equal once one
leading `#` is removed from each. -/
theorem annotationKey_format_and_disambiguation (channel kind c1 c2 k1 k2 : String)
    (hk1 : k1 = pullRequestReviewMessageType ∨ k1 = pipelineMessageType)
    (hk2 : k2 = pullRequestReviewMessageType ∨ k2 = pipelineMessageType)
    (hkey : annotationKey c1 k1 = annotationKey c2 k2) :
    annotationKey channel kind =
      "bot.slack.apps.jenkins-x.io-" ++ kind ++ "/" ++
        (if channel.data.head? = some '#' then ⟨channel.data.tail⟩ else channel) ∧
    k1 = k2 ∧
    (if c1.data.head? = some '#' then (⟨c1.data.tail⟩ : String) else c1) =
      (if c2.data.head? = some '#' then (⟨c2.data.tail⟩ : String) else c2) := by
  refine ⟨?_, ?_⟩
  · rw [← trimPrefix_hash]
    rfl
  · rw [← trimPrefix_hash, ← trimPrefix_hash]
    have hdata := congrArg String.data hkey
    rw [annotationKey_data, annotationKey_data] at hdata
    rcases hk1 with h1 | h1 <;> rcases hk2 with h2 | h2 <;> subst h1 <;> subst h2
    · refine ⟨rfl, ?_⟩
      have := List.append_cancel_left hdata
      simp only [List.cons.injEq, true_and] at this
      exact String.ext this
    · exfalso
      revert hdata
      simp [pullRequestReviewMessageType, pipelineMessageType]
    · exfalso
      revert hdata
      simp [pullRequestReviewMessageType, pipelineMessageType]
    · refine ⟨rfl, ?_⟩
      have := List.append_cancel_left hdata
      simp only [List.cons.injEq, true_and] at this
      exact String.ext this

/-- Claim C17, witness: `#dev` and `dev` give the same review key, and the
pipeline key of `#dev` is another one. -/
theorem annotationKey_format_and_disambiguation_witness :
    annotationKey "#dev" pipelineMessageType = "bot.slack.apps.jenkins-x.io-pipeline/dev" ∧
    annotationKey "#dev" pullRequestReviewMessageType
      ≠ annotationKey "#dev" pipelineMessageType ∧
    (annotationKey "#dev" pipelineMessageType =
      "bot.slack.apps.jenkins-x.io-" ++ pipelineMessageType ++ "/" ++
        (if "#dev".data.head? = some '#' then ⟨"#dev".data.tail⟩ else "#dev") ∧
    pullRequestReviewMessageType = pullRequestReviewMessageType ∧
    (if "#dev".data.head? = some '#' then (⟨"#dev".data.tail⟩ : String) else "#dev") =
      (if "dev".data.head? = some '#' then (⟨"dev".data.tail⟩ : String) else "dev")) :=
  ⟨by decide, by decide,
    annotationKey_format_and_disambiguation "#dev" pipelineMessageType "#dev" "dev"
      pullRequestReviewMessageType pullRequestReviewMessageType (Or.inl rfl) (Or.inl rfl)
      (by decide)⟩

/-- Claim C18, the failing input evaluated. The activity `org-repo-master-3`
runs on the branch `master`, so `getPullRequest` answers a `nil` pull request
and no error. With the ignore list `["wip"]`, `isEnabled` does not return: it
reads the labels of the `nil` pull request and panics, and `PipelineMessage`
panics with it. This happens for every activity without a pull request and
every non-empty ignore list; with an empty list `isEnabled` returns enabled. -/
theorem isEnabled_panics_without_pull_request :
    getPullRequestNumber masterActivity = (0, none) ∧
    getPullRequest (reviewCollaborators openPullRequest []) masterActivity = (none, none) ∧
    isEnabled (reviewCollaborators openPullRequest []) masterActivity ["wip"]
      = Outcome.panic ∧
    (PipelineMessage (reviewCollaborators openPullRequest []) exampleBot masterActivity).exit
      = Exit.panicked ∧
    isEnabled (reviewCollaborators openPullRequest []) masterActivity []
      = Outcome.ok (true, none) ∧
    (∀ (c : Collaborators) (activity : PipelineActivity) (ignoreLabels : List String),
      ¬ (getPullRequestNumber activity).1 > 0 → ignoreLabels ≠ [] →
      isEnabled c activity ignoreLabels = Outcome.panic) := by
  refine ⟨by decide, by decide, by decide, by decide, by decide, ?_⟩
  intro c activity ignoreLabels hnot hne
  exact isEnabled_panics_of_nil c activity ignoreLabels
    (getPullRequest_of_not_pr c activity hnot) hne

end SlackBot
